import Mathlib

/-!
# Descriptor tables of the CHAOS kernel (`kernel/descriptor_tables.c`)

A shallow embedding of the boot-time construction of the GDT, the TSS and the
IDT, and of the PIC remap.  Machine integers are natural numbers, truncated
to their C width with an explicit `%`; the global tables are total functions
on `Fin 6` and `Fin 256`; an array access outside a table (undefined
behaviour in C) makes the operation return `none`.  Calls to the external
assembly routines and to `outportb` are recorded, in program order, in a
trace; a table-load call is recorded together with the memory it can see.
-/

namespace DescriptorTables

/-! ## Machine integers -/

/-- Conversion to `uint8`. -/
def uint8 (x : Nat) : Nat := x % 2 ^ 8

/-- Conversion to `uint16`. -/
def uint16 (x : Nat) : Nat := x % 2 ^ 16

/-- Conversion to `uint` (32 bits). -/
def uint (x : Nat) : Nat := x % 2 ^ 32

/-! ## Data model -/

/-- One GDT entry, `struct gdt_entry_struct` (packed). -/
structure gdt_entry_t where
  limit_low : Nat
  base_low : Nat
  base_middle : Nat
  access : Nat
  granularity : Nat
  base_high : Nat
deriving DecidableEq, Repr

/-- The operand of `lgdt`, `struct gdt_ptr_struct` (packed). -/
structure gdt_ptr_t where
  limit : Nat
  base : Nat
deriving DecidableEq, Repr

/-- One interrupt gate, `struct idt_entry_struct` (packed). -/
structure idt_entry_t where
  base_lo : Nat
  sel : Nat
  always0 : Nat
  flags : Nat
  base_hi : Nat
deriving DecidableEq, Repr

/-- The operand of `lidt`, `struct idt_ptr_struct` (packed). -/
structure idt_ptr_t where
  limit : Nat
  base : Nat
deriving DecidableEq, Repr

/-- The task state segment, `TSSEntry` (packed). -/
structure TSSEntry where
  prev_tss : Nat
  esp0 : Nat
  ss0 : Nat
  esp1 : Nat
  ss1 : Nat
  esp2 : Nat
  ss2 : Nat
  cr3 : Nat
  eip : Nat
  eflags : Nat
  eax : Nat
  ecx : Nat
  edx : Nat
  ebx : Nat
  esp : Nat
  ebp : Nat
  esi : Nat
  edi : Nat
  es : Nat
  cs : Nat
  ss : Nat
  ds : Nat
  fs : Nat
  gs : Nat
  ldt : Nat
  trap : Nat
  iomap_base : Nat
deriving DecidableEq, Repr

/-- Size in bytes of `gdt_entry_t`: the declared widths of its packed fields
(`uint16`, `uint16`, `uint8`, `uint8`, `uint8`, `uint8`). -/
def sizeof_gdt_entry_t : Nat := 2 + 2 + 1 + 1 + 1 + 1

/-- Size in bytes of `idt_entry_t`: the declared widths of its packed fields
(`uint16`, `uint16`, `uint8`, `uint8`, `uint16`). -/
def sizeof_idt_entry_t : Nat := 2 + 2 + 1 + 1 + 2

/-- Size in bytes of `gdt_ptr_t` (`uint16`, `uint`). -/
def sizeof_gdt_ptr_t : Nat := 2 + 4

/-- Size in bytes of `idt_ptr_t` (`uint16`, `uint`). -/
def sizeof_idt_ptr_t : Nat := 2 + 4

/-- Size in bytes of `TSSEntry`: 25 `uint` fields, then two `uint16`. -/
def sizeof_tss_entry : Nat := 25 * 4 + 2 + 2

/-- The integer types the structure declarations use. -/
inductive CType where
  | uint8
  | uint16
  | uint
deriving DecidableEq, Repr

/-- Width in bits of an integer type (`uint` is the 32-bit `unsigned int`). -/
def CType.bits : CType → Nat
  | CType.uint8 => 8
  | CType.uint16 => 16
  | CType.uint => 32

/-- The declaration of `struct gdt_entry_struct`, field by field. -/
def gdt_entry_struct_decl : List (String × CType) :=
  [("limit_low", CType.uint16), ("base_low", CType.uint16), ("base_middle", CType.uint8),
   ("access", CType.uint8), ("granularity", CType.uint8), ("base_high", CType.uint8)]

/-- The declaration of `struct gdt_ptr_struct`, field by field. -/
def gdt_ptr_struct_decl : List (String × CType) :=
  [("limit", CType.uint16), ("base", CType.uint)]

/-- The declaration of `struct idt_entry_struct`, field by field. -/
def idt_entry_struct_decl : List (String × CType) :=
  [("base_lo", CType.uint16), ("sel", CType.uint16), ("always0", CType.uint8),
   ("flags", CType.uint8), ("base_hi", CType.uint16)]

/-- The declaration of `struct idt_ptr_struct`, field by field. -/
def idt_ptr_struct_decl : List (String × CType) :=
  [("limit", CType.uint16), ("base", CType.uint)]

/-- The declaration of `TSSEntry`, field by field. -/
def TSSEntry_decl : List (String × CType) :=
  [("prev_tss", CType.uint), ("esp0", CType.uint), ("ss0", CType.uint),
   ("esp1", CType.uint), ("ss1", CType.uint), ("esp2", CType.uint), ("ss2", CType.uint),
   ("cr3", CType.uint), ("eip", CType.uint), ("eflags", CType.uint), ("eax", CType.uint),
   ("ecx", CType.uint), ("edx", CType.uint), ("ebx", CType.uint), ("esp", CType.uint),
   ("ebp", CType.uint), ("esi", CType.uint), ("edi", CType.uint), ("es", CType.uint),
   ("cs", CType.uint), ("ss", CType.uint), ("ds", CType.uint), ("fs", CType.uint),
   ("gs", CType.uint), ("ldt", CType.uint), ("trap", CType.uint16),
   ("iomap_base", CType.uint16)]

/-- Total width in bits of a packed declaration: the widths of its fields,
added up with no padding. -/
def packed_bits (decl : List (String × CType)) : Nat :=
  (decl.map fun f => f.2.bits).sum

/-- The link-time addresses the file takes with `&` or by naming a function:
the five global objects and the handler stubs `isr0` .. `isr31`, `isr128`
(as `isr 0` .. `isr 31`, `isr 128`) and `irq0` .. `irq15`. -/
structure Symbols where
  gdt_entries : Nat
  gdt_ptr : Nat
  idt_entries : Nat
  idt_ptr : Nat
  tss_entry : Nat
  isr : Nat → Nat
  irq : Nat → Nat

/-- Modelled from the spec: the slot type `isr_t` of the handler registry,
declared in `isr.h` outside this file.  A slot holds the address of the
installed callback, zero when none is installed; the registry
`interrupt_handlers` has 256 such slots. -/
abbrev isr_t : Type := Nat

/-- The global variables of the file.  `interrupt_handlers` is declared
`extern isr_t interrupt_handlers[]`; its 256 slots hold handler addresses. -/
structure Globals where
  gdt_entries : Fin 6 → gdt_entry_t
  gdt_ptr : gdt_ptr_t
  idt_entries : Fin 256 → idt_entry_t
  idt_ptr : idt_ptr_t
  tss_entry : TSSEntry
  interrupt_handlers : Fin 256 → isr_t

/-- A call that leaves the file: a port write, or one of the three assembly
routines, which act on the memory as it is when they are called. -/
inductive Event where
  | outportb (port value : Nat)
  | gdt_flush (arg : Nat) (mem : Globals)
  | tss_flush (mem : Globals)
  | idt_flush (arg : Nat) (mem : Globals)

/-- Memory and the calls made so far, oldest first. -/
structure State where
  mem : Globals
  trace : List Event

/-- The port writes of a trace, in order. -/
def portWrites : List Event → List (Nat × Nat)
  | [] => []
  | Event.outportb p v :: t => (p, v) :: portWrites t
  | _ :: t => portWrites t

/-- The routine an event is a call of. -/
inductive Call where
  | outportb
  | gdt_flush
  | tss_flush
  | idt_flush
deriving DecidableEq, Repr

/-- The routine called, without its arguments and without the memory seen. -/
def Event.call : Event → Call
  | Event.outportb _ _ => Call.outportb
  | Event.gdt_flush _ _ => Call.gdt_flush
  | Event.tss_flush _ => Call.tss_flush
  | Event.idt_flush _ _ => Call.idt_flush

/-! ## External routines -/

/-- The call `outportb(port, value)`. -/
def outportb (s : State) (port value : Nat) : State :=
  { s with trace := s.trace ++ [Event.outportb port value] }

/-- The call `gdt_flush(arg)`. -/
def gdt_flush (s : State) (arg : Nat) : State :=
  { s with trace := s.trace ++ [Event.gdt_flush (uint arg) s.mem] }

/-- The call `tss_flush()`. -/
def tss_flush (s : State) : State :=
  { s with trace := s.trace ++ [Event.tss_flush s.mem] }

/-- The call `idt_flush(arg)`. -/
def idt_flush (s : State) (arg : Nat) : State :=
  { s with trace := s.trace ++ [Event.idt_flush (uint arg) s.mem] }

/-! ## The functions of the file -/

/-- The structure `memset(&tss_entry, 0, sizeof(tss_entry))` leaves. -/
def TSSEntry.zero : TSSEntry :=
  { prev_tss := 0, esp0 := 0, ss0 := 0, esp1 := 0, ss1 := 0, esp2 := 0,
    ss2 := 0, cr3 := 0, eip := 0, eflags := 0, eax := 0, ecx := 0, edx := 0,
    ebx := 0, esp := 0, ebp := 0, esi := 0, edi := 0, es := 0, cs := 0,
    ss := 0, ds := 0, fs := 0, gs := 0, ldt := 0, trap := 0, iomap_base := 0 }

/-- An all-zero gate, as `memset` over `idt_entries` leaves in every slot. -/
def idt_entry_t.zero : idt_entry_t :=
  { base_lo := 0, sel := 0, always0 := 0, flags := 0, base_hi := 0 }

/-- Set the value of one GDT entry: `gdt_set_gate(num, base, limit, access,
gran)`.  `num` is a C `int`; outside `0 .. 5` the stores fall outside
`gdt_entries` and the result is `none`. -/
def gdt_set_gate (s : State) (num : Int) (base limit access gran : Nat) :
    Option State :=
  let base := uint base
  let limit := uint limit
  let access := uint8 access
  let gran := uint8 gran
  if h : 0 ≤ num ∧ num < 6 then
    let i : Fin 6 := ⟨num.toNat, by omega⟩
    let e := s.mem.gdt_entries i
    let e := { e with base_low := uint16 (base &&& 0xFFFF) }
    let e := { e with base_middle := uint8 ((base >>> 16) &&& 0xFF) }
    let e := { e with base_high := uint8 ((base >>> 24) &&& 0xFF) }
    let e := { e with limit_low := uint16 (limit &&& 0xFFFF) }
    let e := { e with granularity := uint8 ((limit >>> 16) &&& 0x0F) }
    let e := { e with granularity := uint8 (e.granularity ||| (gran &&& 0xF0)) }
    let e := { e with access := access }
    some { s with mem :=
      { s.mem with gdt_entries := Function.update s.mem.gdt_entries i e } }
  else none

/-- Initialise the task state segment: `write_tss(num, ss0, esp0)`. -/
def write_tss (a : Symbols) (s : State) (num : Int) (ss0 esp0 : Nat) :
    Option State := do
  let ss0 := uint16 ss0
  let esp0 := uint esp0
  let base := uint a.tss_entry
  let limit := uint (base + sizeof_tss_entry)
  let s ← gdt_set_gate s num base limit 0xE9 0x00
  let t := TSSEntry.zero
  let t := { t with ss0 := uint ss0 }
  let t := { t with esp0 := esp0 }
  let t := { t with cs := 0x0b }
  let t := { t with gs := 0x13 }
  let t := { t with fs := t.gs }
  let t := { t with es := t.fs }
  let t := { t with ds := t.es }
  let t := { t with ss := t.ds }
  pure { s with mem := { s.mem with tss_entry := t } }

/-- The scheduler entry point `set_kernel_stack(stack)`. -/
def set_kernel_stack (s : State) (stack : Nat) : State :=
  { s with mem :=
    { s.mem with tss_entry := { s.mem.tss_entry with esp0 := uint stack } } }

/-- Build and load the GDT and the TSS: `init_gdt()`. -/
def init_gdt (a : Symbols) (s : State) : Option State := do
  let s := { s with mem := { s.mem with gdt_ptr :=
    { s.mem.gdt_ptr with limit := uint16 (sizeof_gdt_entry_t * 6 - 1) } } }
  let s := { s with mem := { s.mem with gdt_ptr :=
    { s.mem.gdt_ptr with base := uint a.gdt_entries } } }
  let s ← gdt_set_gate s 0 0 0 0 0
  let s ← gdt_set_gate s 1 0 0xFFFFFFFF 0x9A 0xCF
  let s ← gdt_set_gate s 2 0 0xFFFFFFFF 0x92 0xCF
  let s ← gdt_set_gate s 3 0 0xFFFFFFFF 0xFA 0xCF
  let s ← gdt_set_gate s 4 0 0xFFFFFFFF 0xF2 0xCF
  let s ← write_tss a s 5 0x10 0x10
  let s := gdt_flush s (uint a.gdt_ptr)
  let s := tss_flush s
  pure s

/-- Set one interrupt gate: `idt_set_gate(num, base, sel, flags)`.  `num` is
a `uint8`, so the slot always lies inside the 256-entry table. -/
def idt_set_gate (s : State) (num base sel flags : Nat) : State :=
  let num := uint8 num
  let base := uint base
  let sel := uint16 sel
  let flags := uint8 flags
  let i : Fin 256 := ⟨num, Nat.mod_lt _ (by decide)⟩
  let e := s.mem.idt_entries i
  let e := { e with base_lo := uint16 (base &&& 0xFFFF) }
  let e := { e with base_hi := uint16 ((base >>> 16) &&& 0xFFFF) }
  let e := { e with sel := sel }
  let e := { e with always0 := 0 }
  let e := { e with flags := uint8 (flags ||| 0x60) }
  { s with mem :=
    { s.mem with idt_entries := Function.update s.mem.idt_entries i e } }

/-- Build and load the IDT, remapping the PIC on the way: `init_idt()`. -/
def init_idt (a : Symbols) (s : State) : State :=
  let s := { s with mem := { s.mem with idt_ptr :=
    { s.mem.idt_ptr with limit := uint16 (sizeof_idt_entry_t * 256 - 1) } } }
  let s := { s with mem := { s.mem with idt_ptr :=
    { s.mem.idt_ptr with base := uint a.idt_entries } } }
  let s := { s with mem :=
    { s.mem with idt_entries := fun _ => idt_entry_t.zero } }
  let s := outportb s 0x20 0x11
  let s := outportb s 0xA0 0x11
  let s := outportb s 0x21 0x20
  let s := outportb s 0xA1 0x28
  let s := outportb s 0x21 0x04
  let s := outportb s 0xA1 0x02
  let s := outportb s 0x21 0x01
  let s := outportb s 0xA1 0x01
  let s := outportb s 0x21 0x0
  let s := outportb s 0xA1 0x0
  let s := idt_set_gate s 0 (uint (a.isr 0)) 0x08 0x8E
  let s := idt_set_gate s 1 (uint (a.isr 1)) 0x08 0x8E
  let s := idt_set_gate s 2 (uint (a.isr 2)) 0x08 0x8E
  let s := idt_set_gate s 3 (uint (a.isr 3)) 0x08 0x8E
  let s := idt_set_gate s 4 (uint (a.isr 4)) 0x08 0x8E
  let s := idt_set_gate s 5 (uint (a.isr 5)) 0x08 0x8E
  let s := idt_set_gate s 6 (uint (a.isr 6)) 0x08 0x8E
  let s := idt_set_gate s 7 (uint (a.isr 7)) 0x08 0x8E
  let s := idt_set_gate s 8 (uint (a.isr 8)) 0x08 0x8E
  let s := idt_set_gate s 9 (uint (a.isr 9)) 0x08 0x8E
  let s := idt_set_gate s 10 (uint (a.isr 10)) 0x08 0x8E
  let s := idt_set_gate s 11 (uint (a.isr 11)) 0x08 0x8E
  let s := idt_set_gate s 12 (uint (a.isr 12)) 0x08 0x8E
  let s := idt_set_gate s 13 (uint (a.isr 13)) 0x08 0x8E
  let s := idt_set_gate s 14 (uint (a.isr 14)) 0x08 0x8E
  let s := idt_set_gate s 15 (uint (a.isr 15)) 0x08 0x8E
  let s := idt_set_gate s 16 (uint (a.isr 16)) 0x08 0x8E
  let s := idt_set_gate s 17 (uint (a.isr 17)) 0x08 0x8E
  let s := idt_set_gate s 18 (uint (a.isr 18)) 0x08 0x8E
  let s := idt_set_gate s 19 (uint (a.isr 19)) 0x08 0x8E
  let s := idt_set_gate s 20 (uint (a.isr 20)) 0x08 0x8E
  let s := idt_set_gate s 21 (uint (a.isr 21)) 0x08 0x8E
  let s := idt_set_gate s 22 (uint (a.isr 22)) 0x08 0x8E
  let s := idt_set_gate s 23 (uint (a.isr 23)) 0x08 0x8E
  let s := idt_set_gate s 24 (uint (a.isr 24)) 0x08 0x8E
  let s := idt_set_gate s 25 (uint (a.isr 25)) 0x08 0x8E
  let s := idt_set_gate s 26 (uint (a.isr 26)) 0x08 0x8E
  let s := idt_set_gate s 27 (uint (a.isr 27)) 0x08 0x8E
  let s := idt_set_gate s 28 (uint (a.isr 28)) 0x08 0x8E
  let s := idt_set_gate s 29 (uint (a.isr 29)) 0x08 0x8E
  let s := idt_set_gate s 30 (uint (a.isr 30)) 0x08 0x8E
  let s := idt_set_gate s 31 (uint (a.isr 31)) 0x08 0x8E
  let s := idt_set_gate s 32 (uint (a.irq 0)) 0x08 0x8E
  let s := idt_set_gate s 33 (uint (a.irq 1)) 0x08 0x8E
  let s := idt_set_gate s 34 (uint (a.irq 2)) 0x08 0x8E
  let s := idt_set_gate s 35 (uint (a.irq 3)) 0x08 0x8E
  let s := idt_set_gate s 36 (uint (a.irq 4)) 0x08 0x8E
  let s := idt_set_gate s 37 (uint (a.irq 5)) 0x08 0x8E
  let s := idt_set_gate s 38 (uint (a.irq 6)) 0x08 0x8E
  let s := idt_set_gate s 39 (uint (a.irq 7)) 0x08 0x8E
  let s := idt_set_gate s 40 (uint (a.irq 8)) 0x08 0x8E
  let s := idt_set_gate s 41 (uint (a.irq 9)) 0x08 0x8E
  let s := idt_set_gate s 42 (uint (a.irq 10)) 0x08 0x8E
  let s := idt_set_gate s 43 (uint (a.irq 11)) 0x08 0x8E
  let s := idt_set_gate s 44 (uint (a.irq 12)) 0x08 0x8E
  let s := idt_set_gate s 45 (uint (a.irq 13)) 0x08 0x8E
  let s := idt_set_gate s 46 (uint (a.irq 14)) 0x08 0x8E
  let s := idt_set_gate s 47 (uint (a.irq 15)) 0x08 0x8E
  let s := idt_set_gate s 128 (uint (a.isr 128)) 0x08 0x8E
  idt_flush s (uint a.idt_ptr)

/-- The boot entry point `init_descriptor_tables()`.  The final `memset`
clears the 256 slots of `interrupt_handlers`. -/
def init_descriptor_tables (a : Symbols) (s : State) : Option State := do
  let s ← init_gdt a s
  let s := init_idt a s
  pure { s with mem := { s.mem with interrupt_handlers := fun _ => 0 } }

/-! ## Sample inputs -/

/-- A memory image with every byte of the globals set to `0xFF`. -/
def Globals.ones : Globals :=
  { gdt_entries := fun _ => ⟨0xFFFF, 0xFFFF, 0xFF, 0xFF, 0xFF, 0xFF⟩
    gdt_ptr := ⟨0xFFFF, 0xFFFFFFFF⟩
    idt_entries := fun _ => ⟨0xFFFF, 0xFFFF, 0xFF, 0xFF, 0xFFFF⟩
    idt_ptr := ⟨0xFFFF, 0xFFFFFFFF⟩
    tss_entry :=
      { prev_tss := 0xFFFFFFFF, esp0 := 0xFFFFFFFF, ss0 := 0xFFFFFFFF,
        esp1 := 0xFFFFFFFF, ss1 := 0xFFFFFFFF, esp2 := 0xFFFFFFFF,
        ss2 := 0xFFFFFFFF, cr3 := 0xFFFFFFFF, eip := 0xFFFFFFFF,
        eflags := 0xFFFFFFFF, eax := 0xFFFFFFFF, ecx := 0xFFFFFFFF,
        edx := 0xFFFFFFFF, ebx := 0xFFFFFFFF, esp := 0xFFFFFFFF,
        ebp := 0xFFFFFFFF, esi := 0xFFFFFFFF, edi := 0xFFFFFFFF,
        es := 0xFFFFFFFF, cs := 0xFFFFFFFF, ss := 0xFFFFFFFF,
        ds := 0xFFFFFFFF, fs := 0xFFFFFFFF, gs := 0xFFFFFFFF,
        ldt := 0xFFFFFFFF, trap := 0xFFFF, iomap_base := 0xFFFF }
    interrupt_handlers := fun _ => 0xFFFFFFFF }

/-- A state before boot: memory full of `0xFF`, no call made yet. -/
def State.ones : State := { mem := Globals.ones, trace := [] }

/-- A sample link map: tables from 1 MiB up, the TSS at `0x112000`, handler
stubs sixteen bytes apart. -/
def Symbols.sample : Symbols :=
  { gdt_entries := 0x110000
    gdt_ptr := 0x110040
    idt_entries := 0x110800
    idt_ptr := 0x111000
    tss_entry := 0x112000
    isr := fun v => 0x100000 + 16 * v
    irq := fun k => 0x101000 + 16 * k }

/-! ## Basic facts about the embedding -/

theorem uint8_of_lt {x : Nat} (h : x < 2 ^ 8) : uint8 x = x := Nat.mod_eq_of_lt h

theorem uint16_of_lt {x : Nat} (h : x < 2 ^ 16) : uint16 x = x := Nat.mod_eq_of_lt h

theorem uint_of_lt {x : Nat} (h : x < 2 ^ 32) : uint x = x := Nat.mod_eq_of_lt h

/-- In range, `gdt_set_gate` returns, and writes one slot. -/
theorem gdt_set_gate_eq_some (s : State) (num : Int) (base limit access gran : Nat)
    (h : 0 ≤ num ∧ num < 6) :
    gdt_set_gate s num base limit access gran =
      some { s with mem := { s.mem with
        gdt_entries := Function.update s.mem.gdt_entries ⟨num.toNat, by omega⟩
          { limit_low := uint16 (uint limit &&& 0xFFFF),
            base_low := uint16 (uint base &&& 0xFFFF),
            base_middle := uint8 ((uint base >>> 16) &&& 0xFF),
            access := uint8 access,
            granularity :=
              uint8 (uint8 ((uint limit >>> 16) &&& 0x0F) ||| (uint8 gran &&& 0xF0)),
            base_high := uint8 ((uint base >>> 24) &&& 0xFF) } } } := by
  simp only [gdt_set_gate, dif_pos h]

/-- Out of range, `gdt_set_gate` has no defined result. -/
theorem gdt_set_gate_eq_none (s : State) (num : Int) (base limit access gran : Nat)
    (h : ¬ (0 ≤ num ∧ num < 6)) :
    gdt_set_gate s num base limit access gran = none := by
  simp only [gdt_set_gate, dif_neg h]

/-- The task state segment `write_tss` builds. -/
theorem write_tss_tss_entry {a : Symbols} {s s' : State} {num : Int} {ss0 esp0 : Nat}
    (h : write_tss a s num ss0 esp0 = some s') :
    s'.mem.tss_entry =
      { prev_tss := 0, esp0 := uint esp0, ss0 := uint (uint16 ss0), esp1 := 0, ss1 := 0,
        esp2 := 0, ss2 := 0, cr3 := 0, eip := 0, eflags := 0, eax := 0, ecx := 0,
        edx := 0, ebx := 0, esp := 0, ebp := 0, esi := 0, edi := 0, es := 0x13,
        cs := 0x0B, ss := 0x13, ds := 0x13, fs := 0x13, gs := 0x13, ldt := 0,
        trap := 0, iomap_base := 0 } := by
  simp only [write_tss, Option.bind_eq_bind, Option.pure_def, Option.bind_eq_some] at h
  obtain ⟨s1, -, h⟩ := h
  cases h
  rfl

/-- In range, `write_tss` returns. -/
theorem write_tss_isSome (a : Symbols) (s : State) (num : Int) (ss0 esp0 : Nat)
    (h : 0 ≤ num ∧ num < 6) : ∃ s', write_tss a s num ss0 esp0 = some s' := by
  simp only [write_tss, Option.bind_eq_bind, Option.pure_def, gdt_set_gate_eq_some _ _ _ _ _ _ h,
    Option.some_bind]
  exact ⟨_, rfl⟩

theorem init_descriptor_tables_of_init_gdt {a : Symbols} {s s1 : State}
    (h : init_gdt a s = some s1) :
    init_descriptor_tables a s =
      some { init_idt a s1 with
        mem := { (init_idt a s1).mem with interrupt_handlers := fun _ => 0 } } := by
  simp only [init_descriptor_tables, h, Option.bind_eq_bind, Option.some_bind, Option.pure_def]

theorem idt_set_gate_gdt_entries (s : State) (num base sel flags : Nat) :
    (idt_set_gate s num base sel flags).mem.gdt_entries = s.mem.gdt_entries := rfl

theorem outportb_mem (s : State) (port value : Nat) : (outportb s port value).mem = s.mem := rfl

theorem idt_flush_mem (s : State) (arg : Nat) : (idt_flush s arg).mem = s.mem := rfl

theorem init_idt_gdt_entries (a : Symbols) (s : State) :
    (init_idt a s).mem.gdt_entries = s.mem.gdt_entries := by
  simp only [init_idt, idt_flush_mem, idt_set_gate_gdt_entries, outportb_mem]

/-- C1: from any prior state `init_gdt`, and so `init_descriptor_tables`,
returns with GDT slot 0 all zero and slots 1 to 4 holding limit_low 0xFFFF,
base 0 in all three base fields, granularity 0xCF and access 0x9A, 0x92,
0xFA, 0xF2 in that order. -/
theorem C1_init_gdt_segments (a : Symbols) (s : State) :
    (∃ s', init_gdt a s = some s' ∧
      s'.mem.gdt_entries 0 = ⟨0, 0, 0, 0, 0, 0⟩ ∧
      s'.mem.gdt_entries 1 = ⟨0xFFFF, 0, 0, 0x9A, 0xCF, 0⟩ ∧
      s'.mem.gdt_entries 2 = ⟨0xFFFF, 0, 0, 0x92, 0xCF, 0⟩ ∧
      s'.mem.gdt_entries 3 = ⟨0xFFFF, 0, 0, 0xFA, 0xCF, 0⟩ ∧
      s'.mem.gdt_entries 4 = ⟨0xFFFF, 0, 0, 0xF2, 0xCF, 0⟩) ∧
    (∃ s', init_descriptor_tables a s = some s' ∧
      s'.mem.gdt_entries 0 = ⟨0, 0, 0, 0, 0, 0⟩ ∧
      s'.mem.gdt_entries 1 = ⟨0xFFFF, 0, 0, 0x9A, 0xCF, 0⟩ ∧
      s'.mem.gdt_entries 2 = ⟨0xFFFF, 0, 0, 0x92, 0xCF, 0⟩ ∧
      s'.mem.gdt_entries 3 = ⟨0xFFFF, 0, 0, 0xFA, 0xCF, 0⟩ ∧
      s'.mem.gdt_entries 4 = ⟨0xFFFF, 0, 0, 0xF2, 0xCF, 0⟩) := by
  have h : ∃ s', init_gdt a s = some s' ∧
      s'.mem.gdt_entries 0 = ⟨0, 0, 0, 0, 0, 0⟩ ∧
      s'.mem.gdt_entries 1 = ⟨0xFFFF, 0, 0, 0x9A, 0xCF, 0⟩ ∧
      s'.mem.gdt_entries 2 = ⟨0xFFFF, 0, 0, 0x92, 0xCF, 0⟩ ∧
      s'.mem.gdt_entries 3 = ⟨0xFFFF, 0, 0, 0xFA, 0xCF, 0⟩ ∧
      s'.mem.gdt_entries 4 = ⟨0xFFFF, 0, 0, 0xF2, 0xCF, 0⟩ := by
    simp [init_gdt, gdt_set_gate, write_tss, gdt_flush, tss_flush, uint, uint8, uint16]
    decide
  refine ⟨h, ?_⟩
  obtain ⟨s1, h1, h⟩ := h
  refine ⟨_, init_descriptor_tables_of_init_gdt h1, ?_⟩
  simpa only [init_idt_gdt_entries] using h

/-- C2: for a 16-bit `ss0` and a 32-bit `esp0`, and from any prior state,
`write_tss` returns for every index inside the GDT, and whenever it returns
the TSS holds `ss0` (zero-extended) and `esp0` as given, `cs = 0x0B`,
`ss = ds = es = fs = gs = 0x13`, and zero in every other field. -/
theorem C2_write_tss_fields (a : Symbols) (s : State) (num : Int) (ss0 esp0 : Nat)
    (hs : ss0 < 2 ^ 16) (hp : esp0 < 2 ^ 32) :
    (0 ≤ num ∧ num < 6 → ∃ s', write_tss a s num ss0 esp0 = some s') ∧
    ∀ s', write_tss a s num ss0 esp0 = some s' →
      s'.mem.tss_entry =
        { prev_tss := 0, esp0 := esp0, ss0 := ss0, esp1 := 0, ss1 := 0, esp2 := 0,
          ss2 := 0, cr3 := 0, eip := 0, eflags := 0, eax := 0, ecx := 0, edx := 0,
          ebx := 0, esp := 0, ebp := 0, esi := 0, edi := 0, es := 0x13, cs := 0x0B,
          ss := 0x13, ds := 0x13, fs := 0x13, gs := 0x13, ldt := 0, trap := 0,
          iomap_base := 0 } := by
  refine ⟨write_tss_isSome a s num ss0 esp0, fun s' h => ?_⟩
  have h16 : uint (uint16 ss0) = ss0 := by
    rw [uint16_of_lt hs]; exact uint_of_lt (by omega)
  rw [write_tss_tss_entry h, h16, uint_of_lt hp]

/-- The theorem `C2_write_tss_fields` at the call `write_tss(5, 0x10, 0x10)` that
`init_gdt` makes. -/
theorem C2_write_tss_fields_witness :
    ∃ s', write_tss Symbols.sample State.ones 5 0x10 0x10 = some s' ∧
      s'.mem.tss_entry.esp0 = 0x10 ∧ s'.mem.tss_entry.ss0 = 0x10 ∧
      s'.mem.tss_entry.cs = 0x0B ∧ s'.mem.tss_entry.prev_tss = 0 := by
  obtain ⟨hex, hall⟩ :=
    C2_write_tss_fields Symbols.sample State.ones 5 0x10 0x10 (by decide) (by decide)
  obtain ⟨s', hs'⟩ := hex ⟨by decide, by decide⟩
  refine ⟨s', hs', ?_⟩
  rw [hall s' hs']
  exact ⟨rfl, rfl, rfl, rfl⟩

/-- C3: for a 32-bit pointer `p`, `set_kernel_stack(p)` sets `esp0` to `p` and
leaves every other TSS field, the GDT, the IDT, both table pointers, the
handler registry and the trace as they were. -/
theorem C3_set_kernel_stack_frame (s : State) (p : Nat) (hp : p < 2 ^ 32) :
    (set_kernel_stack s p).mem.tss_entry = { s.mem.tss_entry with esp0 := p } ∧
    (set_kernel_stack s p).mem.gdt_entries = s.mem.gdt_entries ∧
    (set_kernel_stack s p).mem.gdt_ptr = s.mem.gdt_ptr ∧
    (set_kernel_stack s p).mem.idt_entries = s.mem.idt_entries ∧
    (set_kernel_stack s p).mem.idt_ptr = s.mem.idt_ptr ∧
    (set_kernel_stack s p).mem.interrupt_handlers = s.mem.interrupt_handlers ∧
    (set_kernel_stack s p).trace = s.trace := by
  refine ⟨?_, rfl, rfl, rfl, rfl, rfl, rfl⟩
  simp only [set_kernel_stack, uint_of_lt hp]

/-- The theorem `C3_set_kernel_stack_frame` at a stack pointer of `0x9F000`. -/
theorem C3_set_kernel_stack_frame_witness :
    (set_kernel_stack State.ones 0x9F000).mem.tss_entry.esp0 = 0x9F000 ∧
    (set_kernel_stack State.ones 0x9F000).mem.tss_entry.ss0 = 0xFFFFFFFF := by
  have h := (C3_set_kernel_stack_frame State.ones 0x9F000 (by decide)).1
  rw [h]
  exact ⟨rfl, rfl⟩

/-! ## Frame and effect of the IDT operations -/

theorem idt_set_gate_trace (s : State) (num base sel flags : Nat) :
    (idt_set_gate s num base sel flags).trace = s.trace := rfl

theorem idt_set_gate_gdt_ptr (s : State) (num base sel flags : Nat) :
    (idt_set_gate s num base sel flags).mem.gdt_ptr = s.mem.gdt_ptr := rfl

theorem idt_set_gate_idt_ptr (s : State) (num base sel flags : Nat) :
    (idt_set_gate s num base sel flags).mem.idt_ptr = s.mem.idt_ptr := rfl

theorem idt_set_gate_tss_entry (s : State) (num base sel flags : Nat) :
    (idt_set_gate s num base sel flags).mem.tss_entry = s.mem.tss_entry := rfl

theorem idt_set_gate_interrupt_handlers (s : State) (num base sel flags : Nat) :
    (idt_set_gate s num base sel flags).mem.interrupt_handlers = s.mem.interrupt_handlers := rfl

/-- The one slot `idt_set_gate` writes, and what it writes there. -/
theorem idt_set_gate_idt_entries (s : State) (num base sel flags : Nat) :
    (idt_set_gate s num base sel flags).mem.idt_entries =
      Function.update s.mem.idt_entries ⟨uint8 num, Nat.mod_lt _ (by decide)⟩
        { base_lo := uint16 (uint base &&& 0xFFFF),
          sel := uint16 sel,
          always0 := 0,
          flags := uint8 (uint8 flags ||| 0x60),
          base_hi := uint16 ((uint base >>> 16) &&& 0xFFFF) } := rfl

theorem outportb_trace (s : State) (port value : Nat) :
    (outportb s port value).trace = s.trace ++ [Event.outportb port value] := rfl

theorem idt_flush_trace (s : State) (arg : Nat) :
    (idt_flush s arg).trace = s.trace ++ [Event.idt_flush (uint arg) s.mem] := rfl

theorem portWrites_append (l1 l2 : List Event) :
    portWrites (l1 ++ l2) = portWrites l1 ++ portWrites l2 := by
  induction l1 with
  | nil => rfl
  | cons e t ih => cases e <;> simp [portWrites, ih]

theorem and_0xFFFF (x : Nat) : x &&& 0xFFFF = x % 2 ^ 16 :=
  Nat.and_pow_two_sub_one_eq_mod x 16

/-- The gate stored for a 32-bit handler address, selector 8 and flags 0x8E. -/
theorem idt_gate_value (x : Nat) (hx : x < 2 ^ 32) :
    ({ base_lo := uint16 (uint (uint x) &&& 0xFFFF),
       sel := uint16 0x08,
       always0 := 0,
       flags := uint8 (uint8 0x8E ||| 0x60),
       base_hi := uint16 ((uint (uint x) >>> 16) &&& 0xFFFF) } : idt_entry_t) =
    ⟨x &&& 0xFFFF, 0x08, 0, 0xEE, x >>> 16⟩ := by
  have h1 : uint16 0x08 = 0x08 := by decide
  have h2 : uint8 (uint8 0x8E ||| 0x60) = 0xEE := by decide
  have h3 : x >>> 16 < 2 ^ 16 := by rw [Nat.shiftRight_eq_div_pow]; omega
  rw [uint_of_lt hx, uint_of_lt hx, h1, h2, and_0xFFFF, and_0xFFFF, uint16, uint16,
    Nat.mod_mod, Nat.mod_mod, Nat.mod_eq_of_lt h3]

/-- The IDT `init_idt` leaves, slot by slot, before any arithmetic on the
handler addresses. -/
theorem init_idt_idt_entries_apply (a : Symbols) (s : State) (v : Fin 256) :
    (init_idt a s).mem.idt_entries v =
      if v.val < 32 then
        { base_lo := uint16 (uint (uint (a.isr v.val)) &&& 0xFFFF),
          sel := uint16 0x08,
          always0 := 0,
          flags := uint8 (uint8 0x8E ||| 0x60),
          base_hi := uint16 ((uint (uint (a.isr v.val)) >>> 16) &&& 0xFFFF) }
      else if v.val < 48 then
        { base_lo := uint16 (uint (uint (a.irq (v.val - 32))) &&& 0xFFFF),
          sel := uint16 0x08,
          always0 := 0,
          flags := uint8 (uint8 0x8E ||| 0x60),
          base_hi := uint16 ((uint (uint (a.irq (v.val - 32))) >>> 16) &&& 0xFFFF) }
      else if v.val = 128 then
        { base_lo := uint16 (uint (uint (a.isr 128)) &&& 0xFFFF),
          sel := uint16 0x08,
          always0 := 0,
          flags := uint8 (uint8 0x8E ||| 0x60),
          base_hi := uint16 ((uint (uint (a.isr 128)) >>> 16) &&& 0xFFFF) }
      else idt_entry_t.zero := by
  simp only [init_idt, idt_flush_mem, idt_set_gate_idt_entries, outportb_mem,
    Function.update_apply, Fin.ext_iff]
  generalize uint8 (uint8 0x8E ||| 0x60) = fl
  simp only [uint8, Nat.reducePow, Nat.reduceMod]
  obtain ⟨v, hv⟩ := v
  simp only
  by_cases h32 : v < 32
  · interval_cases v <;> simp
  · by_cases h48 : v < 48
    · interval_cases v <;> simp
    · by_cases h128 : v = 128
      · subst h128
        rw [if_pos rfl, if_neg h32, if_neg h48, if_pos rfl]
      · have hne : ∀ k, k < 48 → (v = k) = False := fun k hk => eq_false (by omega)
        simp only [hne, Nat.reduceLT, if_false, if_neg h32, if_neg h48, if_neg h128]

/-- The calls `init_idt` makes, in order: the ten port writes, then
`idt_flush` on the finished table. -/
theorem init_idt_trace (a : Symbols) (s : State) :
    (init_idt a s).trace = s.trace ++
      [Event.outportb 0x20 0x11, Event.outportb 0xA0 0x11, Event.outportb 0x21 0x20,
       Event.outportb 0xA1 0x28, Event.outportb 0x21 0x04, Event.outportb 0xA1 0x02,
       Event.outportb 0x21 0x01, Event.outportb 0xA1 0x01, Event.outportb 0x21 0x00,
       Event.outportb 0xA1 0x00, Event.idt_flush (uint (uint a.idt_ptr)) (init_idt a s).mem] := by
  simp only [init_idt, idt_flush_trace, idt_flush_mem, idt_set_gate_trace, outportb_trace,
    List.append_assoc, List.singleton_append, List.cons_append, List.nil_append]

/-- The calls `init_gdt` makes: `gdt_flush`, then `tss_flush`, both on the
memory it leaves. -/
theorem init_gdt_trace (a : Symbols) (s : State) :
    ∃ s', init_gdt a s = some s' ∧
      s'.trace = s.trace ++
        [Event.gdt_flush (uint (uint a.gdt_ptr)) s'.mem, Event.tss_flush s'.mem] := by
  simp [init_gdt, gdt_set_gate, write_tss, gdt_flush, tss_flush]

set_option maxRecDepth 100000 in
theorem flags_dpl : ∀ f < 256, (f ||| 0x60) % 256 = f ||| 0x60 ∧ ((f ||| 0x60) >>> 5) &&& 3 = 3 := by
  decide

theorem testBit_0x60 (i : Nat) (h5 : i ≠ 5) (h6 : i ≠ 6) : Nat.testBit 0x60 i = false := by
  by_cases h : i < 7
  · interval_cases i <;> first | rfl | omega
  · exact Nat.testBit_lt_two_pow
      (Nat.lt_of_lt_of_le (by decide : 0x60 < 2 ^ 7) (Nat.pow_le_pow_right (by decide) (by omega)))

/-- C4: for 32-bit handler-stub addresses and from any prior IDT, after
`init_idt` vector `v` in 0..31 holds the gate of `isr<v>`, vector `v` in
32..47 the gate of `irq<v-32>` and vector 128 the gate of `isr128`, each with
`base_lo = addr & 0xFFFF`, `base_hi = addr >> 16`, `sel = 0x08`,
`always0 = 0` and `flags = 0x8E | 0x60 = 0xEE`; every other vector is zero in
all five fields. -/
theorem C4_init_idt_gates (a : Symbols) (s : State)
    (hisr : ∀ v, v < 32 ∨ v = 128 → a.isr v < 2 ^ 32) (hirq : ∀ k, k < 16 → a.irq k < 2 ^ 32) :
    (∀ v : Fin 256, v.val < 32 → (init_idt a s).mem.idt_entries v =
      ⟨a.isr v.val &&& 0xFFFF, 0x08, 0, 0x8E ||| 0x60, a.isr v.val >>> 16⟩) ∧
    (∀ v : Fin 256, 32 ≤ v.val → v.val < 48 → (init_idt a s).mem.idt_entries v =
      ⟨a.irq (v.val - 32) &&& 0xFFFF, 0x08, 0, 0x8E ||| 0x60, a.irq (v.val - 32) >>> 16⟩) ∧
    (init_idt a s).mem.idt_entries 128 =
      ⟨a.isr 128 &&& 0xFFFF, 0x08, 0, 0x8E ||| 0x60, a.isr 128 >>> 16⟩ ∧
    (0x8E ||| 0x60 : Nat) = 0xEE ∧
    (∀ v : Fin 256, 48 ≤ v.val → v.val ≠ 128 → (init_idt a s).mem.idt_entries v =
      ⟨0, 0, 0, 0, 0⟩) := by
  refine ⟨fun v hv => ?_, fun v hv hv' => ?_, ?_, by decide, fun v hv hv' => ?_⟩
  · rw [init_idt_idt_entries_apply, if_pos hv, idt_gate_value _ (hisr _ (Or.inl hv))]
    rfl
  · rw [init_idt_idt_entries_apply, if_neg (by omega), if_pos hv',
      idt_gate_value _ (hirq _ (by omega))]
    rfl
  · rw [init_idt_idt_entries_apply, if_neg (by decide), if_neg (by decide), if_pos (by decide),
      idt_gate_value _ (hisr _ (Or.inr rfl))]
    rfl
  · rw [init_idt_idt_entries_apply, if_neg (by omega), if_neg (by omega), if_neg hv']
    rfl

/-- The theorem `C4_init_idt_gates` on the sample link map: the gates of the
page-fault vector 14, of IRQ 1 at vector 33 and of vector 128, and the empty
vector 48. -/
theorem C4_init_idt_gates_witness :
    (init_idt Symbols.sample State.ones).mem.idt_entries 14 = ⟨0x00E0, 0x08, 0, 0xEE, 0x0010⟩ ∧
    (init_idt Symbols.sample State.ones).mem.idt_entries 33 = ⟨0x1010, 0x08, 0, 0xEE, 0x0010⟩ ∧
    (init_idt Symbols.sample State.ones).mem.idt_entries 128 = ⟨0x0800, 0x08, 0, 0xEE, 0x0010⟩ ∧
    (init_idt Symbols.sample State.ones).mem.idt_entries 48 = ⟨0, 0, 0, 0, 0⟩ := by
  have h := C4_init_idt_gates Symbols.sample State.ones
    (fun v hv => by
      have : v < 129 := by omega
      simp only [Symbols.sample]; omega)
    (fun k hk => by simp only [Symbols.sample]; omega)
  refine ⟨?_, ?_, ?_, ?_⟩
  · rw [h.1 14 (by decide)]; decide
  · rw [h.2.1 33 (by decide) (by decide)]; decide
  · rw [h.2.2.1]; decide
  · exact h.2.2.2.2 48 (by decide) (by decide)

/-- C5: the port writes of `init_idt`, and so of `init_descriptor_tables`
(which returns from any prior state), are exactly the ten PIC remap writes,
in order, after whatever was written before the call. -/
theorem C5_pic_remap_writes (a : Symbols) (s : State) :
    portWrites (init_idt a s).trace = portWrites s.trace ++
      [(0x20, 0x11), (0xA0, 0x11), (0x21, 0x20), (0xA1, 0x28), (0x21, 0x04),
       (0xA1, 0x02), (0x21, 0x01), (0xA1, 0x01), (0x21, 0x00), (0xA1, 0x00)] ∧
    ∃ s', init_descriptor_tables a s = some s' ∧
      portWrites s'.trace = portWrites s.trace ++
        [(0x20, 0x11), (0xA0, 0x11), (0x21, 0x20), (0xA1, 0x28), (0x21, 0x04),
         (0xA1, 0x02), (0x21, 0x01), (0xA1, 0x01), (0x21, 0x00), (0xA1, 0x00)] := by
  have hidt : ∀ t : State, portWrites (init_idt a t).trace = portWrites t.trace ++
      [(0x20, 0x11), (0xA0, 0x11), (0x21, 0x20), (0xA1, 0x28), (0x21, 0x04),
       (0xA1, 0x02), (0x21, 0x01), (0xA1, 0x01), (0x21, 0x00), (0xA1, 0x00)] := by
    intro t
    rw [init_idt_trace, portWrites_append]
    rfl
  refine ⟨hidt s, ?_⟩
  obtain ⟨s1, h1, ht⟩ := init_gdt_trace a s
  refine ⟨_, init_descriptor_tables_of_init_gdt h1, ?_⟩
  show portWrites (init_idt a s1).trace = _
  rw [hidt s1, ht, portWrites_append]
  simp only [portWrites, List.append_nil]

/-- C6: for a vector `v` below 256, a 32-bit address `a`, a 16-bit selector
`sl` and a flags byte `f`, the gate `idt_set_gate(v, a, sl, f)` leaves at `v`
has `base_lo + 65536 * base_hi = a` with `base_lo = a mod 2^16` and
`base_hi = a div 2^16`, `sel = sl`, `always0 = 0` and `flags = f | 0x60`; so
bits 5-6 of the flags are 3 and every other bit is that of `f`. -/
theorem C6_idt_set_gate_encoding (s : State) (v a sl f : Nat)
    (hv : v < 256) (ha : a < 2 ^ 32) (hs : sl < 2 ^ 16) (hf : f < 2 ^ 8) :
    ∃ g, (idt_set_gate s v a sl f).mem.idt_entries ⟨v, hv⟩ = g ∧
      g.base_lo + 65536 * g.base_hi = a ∧ g.base_lo = a % 2 ^ 16 ∧ g.base_hi = a / 2 ^ 16 ∧
      g.sel = sl ∧ g.always0 = 0 ∧ g.flags = f ||| 0x60 ∧
      (g.flags >>> 5) &&& 3 = 3 ∧
      ∀ i, i ≠ 5 → i ≠ 6 → g.flags.testBit i = f.testBit i := by
  have hidx : (⟨uint8 v, Nat.mod_lt _ (by decide)⟩ : Fin 256) = ⟨v, hv⟩ :=
    Fin.ext (uint8_of_lt hv)
  have hlo : uint16 (uint a &&& 0xFFFF) = a % 2 ^ 16 := by
    rw [uint_of_lt ha, and_0xFFFF, uint16, Nat.mod_mod]
  have hhi : uint16 ((uint a >>> 16) &&& 0xFFFF) = a / 2 ^ 16 := by
    rw [uint_of_lt ha, and_0xFFFF, uint16, Nat.mod_mod, Nat.shiftRight_eq_div_pow]
    omega
  have hfl : uint8 (uint8 f ||| 0x60) = f ||| 0x60 := by
    rw [uint8_of_lt hf]; exact (flags_dpl f hf).1
  refine ⟨⟨a % 2 ^ 16, sl, 0, f ||| 0x60, a / 2 ^ 16⟩, ?_, ?_, rfl, rfl, rfl, rfl, rfl,
    (flags_dpl f hf).2, fun i h5 h6 => ?_⟩
  · rw [idt_set_gate_idt_entries, hidx, Function.update_same, hlo, hhi, hfl, uint16_of_lt hs]
  · show a % 2 ^ 16 + 65536 * (a / 2 ^ 16) = a
    omega
  · show (f ||| 0x60).testBit i = f.testBit i
    rw [Nat.testBit_or, testBit_0x60 i h5 h6, Bool.or_false]

/-- The theorem `C6_idt_set_gate_encoding` at the page-fault gate
`idt_set_gate(14, 0x001000E0, 0x08, 0x8E)`: the stored flags are `0xEE`. -/
theorem C6_idt_set_gate_encoding_witness :
    ((idt_set_gate State.ones 14 0x001000E0 0x08 0x8E).mem.idt_entries 14).flags = 0xEE ∧
    ((idt_set_gate State.ones 14 0x001000E0 0x08 0x8E).mem.idt_entries 14).base_hi = 0x10 := by
  obtain ⟨g, hg, -, -, hhi, -, -, hfl, -, -⟩ :=
    C6_idt_set_gate_encoding State.ones 14 0x001000E0 0x08 0x8E
      (by decide) (by decide) (by decide) (by decide)
  have h14 : (14 : Fin 256) = ⟨14, by decide⟩ := rfl
  rw [h14, hg, hfl, hhi]
  exact ⟨by decide, by decide⟩


/-! ## The GDT operations -/

set_option maxRecDepth 100000 in
theorem gran_nibbles : ∀ x < 16, ∀ g < 256,
    (x ||| (g &&& 0xF0)) % 256 = x ||| (g &&& 0xF0) ∧
      (x ||| (g &&& 0xF0)) &&& 0x0F = x ∧ (x ||| (g &&& 0xF0)) &&& 0xF0 = g &&& 0xF0 := by
  decide

theorem and_0x0F (x : Nat) : x &&& 0x0F = x % 2 ^ 4 :=
  Nat.and_pow_two_sub_one_eq_mod x 4

theorem and_0xFF (x : Nat) : x &&& 0xFF = x % 2 ^ 8 :=
  Nat.and_pow_two_sub_one_eq_mod x 8

/-- The granularity byte `gdt_set_gate` stores: bits 16..19 of the limit
below, the high nibble of `gran` above. -/
theorem gdt_granularity_value (limit gran : Nat) (hg : gran < 2 ^ 8) :
    uint8 (uint8 ((limit >>> 16) &&& 0x0F) ||| (uint8 gran &&& 0xF0)) =
      ((limit >>> 16) &&& 0x0F) ||| (gran &&& 0xF0) := by
  have hx : (limit >>> 16) &&& 0x0F < 16 := by rw [and_0x0F]; omega
  have h1 : uint8 ((limit >>> 16) &&& 0x0F) = (limit >>> 16) &&& 0x0F :=
    uint8_of_lt (by omega)
  rw [uint8_of_lt hg, h1]
  exact (gran_nibbles _ hx gran hg).1

/-- On an index of the table, `gdt_set_gate` returns, and writes that slot. -/
theorem gdt_set_gate_fin (s : State) (i : Fin 6) (base limit access gran : Nat) :
    gdt_set_gate s (i.val : Int) base limit access gran =
      some { s with mem := { s.mem with
        gdt_entries := Function.update s.mem.gdt_entries i
          { limit_low := uint16 (uint limit &&& 0xFFFF),
            base_low := uint16 (uint base &&& 0xFFFF),
            base_middle := uint8 ((uint base >>> 16) &&& 0xFF),
            access := uint8 access,
            granularity :=
              uint8 (uint8 ((uint limit >>> 16) &&& 0x0F) ||| (uint8 gran &&& 0xF0)),
            base_high := uint8 ((uint base >>> 24) &&& 0xFF) } } } := by
  rw [gdt_set_gate_eq_some s _ base limit access gran ⟨by omega, by omega⟩]
  have hi : (⟨((i.val : Int)).toNat, by omega⟩ : Fin 6) = i := Fin.ext (Int.toNat_ofNat _)
  simp only [hi]

/-- On an index of the table, `write_tss` returns: it writes the TSS
descriptor into that slot and rebuilds the TSS. -/
theorem write_tss_fin (a : Symbols) (s : State) (i : Fin 6) (ss0 esp0 : Nat) :
    ∃ s', write_tss a s (i.val : Int) ss0 esp0 = some s' ∧
      s'.mem.gdt_entries = Function.update s.mem.gdt_entries i
        { limit_low := uint16 (uint (uint (uint a.tss_entry + sizeof_tss_entry)) &&& 0xFFFF),
          base_low := uint16 (uint (uint a.tss_entry) &&& 0xFFFF),
          base_middle := uint8 ((uint (uint a.tss_entry) >>> 16) &&& 0xFF),
          access := uint8 0xE9,
          granularity :=
            uint8 (uint8 ((uint (uint (uint a.tss_entry + sizeof_tss_entry)) >>> 16) &&& 0x0F)
              ||| (uint8 0x00 &&& 0xF0)),
          base_high := uint8 ((uint (uint a.tss_entry) >>> 24) &&& 0xFF) } ∧
      s'.mem.gdt_ptr = s.mem.gdt_ptr ∧ s'.mem.idt_entries = s.mem.idt_entries ∧
      s'.mem.idt_ptr = s.mem.idt_ptr ∧
      s'.mem.interrupt_handlers = s.mem.interrupt_handlers ∧ s'.trace = s.trace := by
  simp only [write_tss, Option.bind_eq_bind, Option.pure_def, gdt_set_gate_fin,
    Option.some_bind]
  exact ⟨_, rfl, rfl, rfl, rfl, rfl, rfl, rfl⟩

/-- C7 as stated fails at `gdt_set_gate(1, 0, 0xFFFFFFFF, 0x9A, 0x00)`: the
stored granularity byte is `0x0F`, so its low nibble is not the caller's
(zero) low nibble, and its high nibble holds none of the limit's bits. -/
theorem C7_counterexample :
    ∃ s', gdt_set_gate State.ones 1 0 0xFFFFFFFF 0x9A 0x00 = some s' ∧
      (s'.mem.gdt_entries 1).granularity = 0x0F ∧
      (s'.mem.gdt_entries 1).granularity &&& 0x0F ≠ 0x00 &&& 0x0F ∧
      (s'.mem.gdt_entries 1).granularity >>> 4 ≠ 0xFFFFFFFF >>> 28 ∧
      (s'.mem.gdt_entries 1).granularity >>> 4 ≠ (0xFFFFFFFF >>> 16) &&& 0x0F := by
  refine ⟨_, gdt_set_gate_fin State.ones 1 0 0xFFFFFFFF 0x9A 0x00, ?_⟩
  simp only [Function.update_same]
  decide

/-- C7, amended: for an index of the GDT, a 32-bit limit and a byte `gran`,
`gdt_set_gate` returns and the slot has `limit_low` equal to the low 16 bits
of the limit, bits 16..19 of the limit in the low nibble of the granularity
byte, and the high nibble of `gran` in its high nibble (the low nibble of
`gran` is dropped). -/
theorem C7_gdt_set_gate_limit_granularity (s : State) (i : Fin 6)
    (base limit access gran : Nat) (hl : limit < 2 ^ 32) (hg : gran < 2 ^ 8) :
    ∃ s', gdt_set_gate s (i.val : Int) base limit access gran = some s' ∧
      (s'.mem.gdt_entries i).limit_low = limit &&& 0xFFFF ∧
      (s'.mem.gdt_entries i).granularity = ((limit >>> 16) &&& 0x0F) ||| (gran &&& 0xF0) ∧
      (s'.mem.gdt_entries i).granularity &&& 0x0F = (limit >>> 16) &&& 0x0F ∧
      (s'.mem.gdt_entries i).granularity &&& 0xF0 = gran &&& 0xF0 := by
  refine ⟨_, gdt_set_gate_fin s i base limit access gran, ?_⟩
  have hx : (limit >>> 16) &&& 0x0F < 16 := by rw [and_0x0F]; omega
  have hn := gran_nibbles _ hx gran hg
  simp only [Function.update_same]
  rw [uint_of_lt hl, gdt_granularity_value limit gran hg]
  refine ⟨?_, rfl, hn.2.1, hn.2.2⟩
  rw [and_0xFFFF, uint16, Nat.mod_mod]

/-- The theorem `C7_gdt_set_gate_limit_granularity` at the kernel code
segment `gdt_set_gate(1, 0, 0xFFFFFFFF, 0x9A, 0xCF)`. -/
theorem C7_gdt_set_gate_limit_granularity_witness :
    ∃ s', gdt_set_gate State.ones 1 0 0xFFFFFFFF 0x9A 0xCF = some s' ∧
      (s'.mem.gdt_entries 1).limit_low = 0xFFFF ∧
      (s'.mem.gdt_entries 1).granularity = 0xCF := by
  obtain ⟨s', hs', hlow, hgr, -, -⟩ :=
    C7_gdt_set_gate_limit_granularity State.ones 1 0 0xFFFFFFFF 0x9A 0xCF
      (by decide) (by decide)
  exact ⟨s', hs', by rw [hlow]; decide, by rw [hgr]; decide⟩

/-- C8: `gdt_set_gate` on an index `i` of the GDT returns and leaves every
other GDT slot, the GDT pointer, the TSS, the IDT, the IDT pointer, the
handler registry and the trace unchanged; `idt_set_gate` on a vector `v`
below 256 leaves every other IDT slot and everything else unchanged. -/
theorem C8_set_gate_frame (s : State) (i : Fin 6) (base limit access gran : Nat)
    (v hbase sel flags : Nat) (hv : v < 256) :
    (∃ s', gdt_set_gate s (i.val : Int) base limit access gran = some s' ∧
      (∀ j : Fin 6, j ≠ i → s'.mem.gdt_entries j = s.mem.gdt_entries j) ∧
      s'.mem.gdt_ptr = s.mem.gdt_ptr ∧ s'.mem.tss_entry = s.mem.tss_entry ∧
      s'.mem.idt_entries = s.mem.idt_entries ∧ s'.mem.idt_ptr = s.mem.idt_ptr ∧
      s'.mem.interrupt_handlers = s.mem.interrupt_handlers ∧ s'.trace = s.trace) ∧
    ((∀ j : Fin 256, j.val ≠ v →
        (idt_set_gate s v hbase sel flags).mem.idt_entries j = s.mem.idt_entries j) ∧
      (idt_set_gate s v hbase sel flags).mem.idt_ptr = s.mem.idt_ptr ∧
      (idt_set_gate s v hbase sel flags).mem.gdt_entries = s.mem.gdt_entries ∧
      (idt_set_gate s v hbase sel flags).mem.gdt_ptr = s.mem.gdt_ptr ∧
      (idt_set_gate s v hbase sel flags).mem.tss_entry = s.mem.tss_entry ∧
      (idt_set_gate s v hbase sel flags).mem.interrupt_handlers = s.mem.interrupt_handlers ∧
      (idt_set_gate s v hbase sel flags).trace = s.trace) := by
  refine ⟨⟨_, gdt_set_gate_fin s i base limit access gran, fun j hj => ?_,
    rfl, rfl, rfl, rfl, rfl, rfl⟩, fun j hj => ?_, rfl, rfl, rfl, rfl, rfl, rfl⟩
  · exact Function.update_noteq hj _ _
  · rw [idt_set_gate_idt_entries]
    refine Function.update_noteq (fun h => hj ?_) _ _
    rw [h]
    exact uint8_of_lt hv

/-- The theorem `C8_set_gate_frame` at the user data segment (slot 4) and at
vector 128: slot 3 and vector 127 keep their prior contents. -/
theorem C8_set_gate_frame_witness :
    (∃ s', gdt_set_gate State.ones 4 0 0xFFFFFFFF 0xF2 0xCF = some s' ∧
      s'.mem.gdt_entries 3 = State.ones.mem.gdt_entries 3) ∧
    (idt_set_gate State.ones 128 0x100800 0x08 0x8E).mem.idt_entries 127 =
      State.ones.mem.idt_entries 127 := by
  obtain ⟨⟨s', hs', hslots, -⟩, hvec, -⟩ :=
    C8_set_gate_frame State.ones 4 0 0xFFFFFFFF 0xF2 0xCF 128 0x100800 0x08 0x8E (by decide)
  exact ⟨⟨s', hs', hslots 3 (by decide)⟩, hvec 127 (by decide)⟩


theorem init_idt_gdt_ptr (a : Symbols) (s : State) :
    (init_idt a s).mem.gdt_ptr = s.mem.gdt_ptr := by
  simp only [init_idt, idt_flush_mem, idt_set_gate_gdt_ptr, outportb_mem]

theorem init_idt_tss_entry (a : Symbols) (s : State) :
    (init_idt a s).mem.tss_entry = s.mem.tss_entry := by
  simp only [init_idt, idt_flush_mem, idt_set_gate_tss_entry, outportb_mem]

/-- The base fields and the access byte of the descriptor `write_tss` passes
to `gdt_set_gate`, for a 32-bit TSS address. -/
theorem tss_descriptor_base (A : Nat) (hA : A < 2 ^ 32) :
    uint16 (uint (uint A) &&& 0xFFFF) = A % 2 ^ 16 ∧
    uint8 ((uint (uint A) >>> 16) &&& 0xFF) = A / 2 ^ 16 % 256 ∧
    uint8 ((uint (uint A) >>> 24) &&& 0xFF) = A / 2 ^ 24 := by
  rw [uint_of_lt hA, uint_of_lt hA, and_0xFFFF, and_0xFF, and_0xFF,
    Nat.shiftRight_eq_div_pow, Nat.shiftRight_eq_div_pow]
  refine ⟨uint16_of_lt (Nat.mod_lt _ (by decide)), uint8_of_lt (Nat.mod_lt _ (by decide)), ?_⟩
  rw [uint8_of_lt (Nat.mod_lt _ (by decide))]
  omega

/-- The flag nibble of the granularity byte of the TSS descriptor is zero. -/
theorem tss_descriptor_granularity_high (l : Nat) :
    uint8 (uint8 ((l >>> 16) &&& 0x0F) ||| (uint8 0x00 &&& 0xF0)) &&& 0xF0 = 0x00 := by
  have hx : (l >>> 16) &&& 0x0F < 16 := by rw [and_0x0F]; omega
  have h1 : uint8 ((l >>> 16) &&& 0x0F) = (l >>> 16) &&& 0x0F := uint8_of_lt (by omega)
  have h0 : uint8 0x00 = 0 := rfl
  have hn := gran_nibbles _ hx 0 (by decide)
  have h2 : uint8 ((l >>> 16) &&& 0x0F ||| (0 &&& 0xF0)) = (l >>> 16) &&& 0x0F ||| (0 &&& 0xF0) :=
    hn.1
  rw [h1, h0, h2, hn.2.2]
  rfl

/-- C9: the claim is what the descriptor of a 104-byte TSS must be, and the
code misses it in the granularity byte.  On the sample link map, TSS at
`0x112000`, `write_tss(5, 0x10, 0x10)` returns with access `0xE9` and the
base fields of the address in slot 5, as claimed, but with granularity byte
`0x01` where the claim has `0x00`: `write_tss` passes the end address
`base + sizeof(tss_entry)` as the limit, and `gdt_set_gate` stores bits
16..19 of it in that byte.  With the TSS at `0x1FFFA0` the 20-bit limit so
encoded is 8, less than the `0x67` a TSS needs.  Called with the limit
`sizeof(tss_entry) - 1`, `gdt_set_gate` stores `0x00` whatever the base. -/
theorem C9_tss_granularity_defect :
    (∃ s', write_tss Symbols.sample State.ones 5 0x10 0x10 = some s' ∧
      (s'.mem.gdt_entries 5).access = 0xE9 ∧
      (s'.mem.gdt_entries 5).base_low = 0x2000 ∧
      (s'.mem.gdt_entries 5).base_middle = 0x11 ∧
      (s'.mem.gdt_entries 5).base_high = 0x00 ∧
      (s'.mem.gdt_entries 5).granularity = 0x01 ∧
      (s'.mem.gdt_entries 5).granularity ≠ 0x00) ∧
    (∃ s', write_tss { Symbols.sample with tss_entry := 0x1FFFA0 } State.ones 5 0x10 0x10 =
        some s' ∧
      (s'.mem.gdt_entries 5).limit_low +
        2 ^ 16 * ((s'.mem.gdt_entries 5).granularity &&& 0x0F) = 8 ∧
      8 < 0x67) ∧
    (∀ (s : State) (i : Fin 6) (base : Nat),
      ∃ s', gdt_set_gate s (i.val : Int) base (sizeof_tss_entry - 1) 0xE9 0x00 = some s' ∧
        (s'.mem.gdt_entries i).granularity = 0x00) := by
  refine ⟨?_, ?_, fun s i base => ?_⟩
  · obtain ⟨s', hs', hg, -⟩ := write_tss_fin Symbols.sample State.ones 5 0x10 0x10
    refine ⟨s', hs', ?_⟩
    rw [hg, Function.update_same]
    decide
  · obtain ⟨s', hs', hg, -⟩ :=
      write_tss_fin { Symbols.sample with tss_entry := 0x1FFFA0 } State.ones 5 0x10 0x10
    refine ⟨s', hs', ?_⟩
    rw [hg, Function.update_same]
    decide
  · refine ⟨_, gdt_set_gate_fin s i base (sizeof_tss_entry - 1) 0xE9 0x00, ?_⟩
    simp only [Function.update_same]
    decide

/-- The part of the TSS descriptor that does not depend on the limit: for a
32-bit TSS address `A`, `write_tss` on an index of the GDT returns and leaves
there a descriptor with access `0xE9`, a zero flag (high) nibble in the
granularity byte, and base fields that encode `A`; the same holds for slot 5
after `init_gdt` and after `init_descriptor_tables`. -/
theorem tss_descriptor_access_base (a : Symbols) (s : State) (i : Fin 6) (ss0 esp0 : Nat)
    (hA : a.tss_entry < 2 ^ 32) :
    (∃ s', write_tss a s (i.val : Int) ss0 esp0 = some s' ∧
      (s'.mem.gdt_entries i).access = 0xE9 ∧
      (s'.mem.gdt_entries i).granularity &&& 0xF0 = 0x00 ∧
      (s'.mem.gdt_entries i).base_low = a.tss_entry % 2 ^ 16 ∧
      (s'.mem.gdt_entries i).base_middle = a.tss_entry / 2 ^ 16 % 256 ∧
      (s'.mem.gdt_entries i).base_high = a.tss_entry / 2 ^ 24) ∧
    (∃ s', init_gdt a s = some s' ∧
      (s'.mem.gdt_entries 5).access = 0xE9 ∧
      (s'.mem.gdt_entries 5).granularity &&& 0xF0 = 0x00 ∧
      (s'.mem.gdt_entries 5).base_low = a.tss_entry % 2 ^ 16 ∧
      (s'.mem.gdt_entries 5).base_middle = a.tss_entry / 2 ^ 16 % 256 ∧
      (s'.mem.gdt_entries 5).base_high = a.tss_entry / 2 ^ 24) ∧
    (∃ s', init_descriptor_tables a s = some s' ∧
      (s'.mem.gdt_entries 5).access = 0xE9 ∧
      (s'.mem.gdt_entries 5).granularity &&& 0xF0 = 0x00 ∧
      (s'.mem.gdt_entries 5).base_low = a.tss_entry % 2 ^ 16 ∧
      (s'.mem.gdt_entries 5).base_middle = a.tss_entry / 2 ^ 16 % 256 ∧
      (s'.mem.gdt_entries 5).base_high = a.tss_entry / 2 ^ 24) := by
  obtain ⟨hlo, hmid, hhi⟩ := tss_descriptor_base a.tss_entry hA
  have hgr := tss_descriptor_granularity_high (uint (uint (uint a.tss_entry + sizeof_tss_entry)))
  have hacc : uint8 0xE9 = 0xE9 := rfl
  have hgdt : ∃ s', init_gdt a s = some s' ∧
      (s'.mem.gdt_entries 5).access = 0xE9 ∧
      (s'.mem.gdt_entries 5).granularity &&& 0xF0 = 0x00 ∧
      (s'.mem.gdt_entries 5).base_low = a.tss_entry % 2 ^ 16 ∧
      (s'.mem.gdt_entries 5).base_middle = a.tss_entry / 2 ^ 16 % 256 ∧
      (s'.mem.gdt_entries 5).base_high = a.tss_entry / 2 ^ 24 := by
    simp only [init_gdt, gdt_set_gate, write_tss, gdt_flush, tss_flush, Option.bind_eq_bind,
      Option.pure_def]
    simp
    exact ⟨hacc, hgr, hlo, hmid, hhi⟩
  refine ⟨?_, hgdt, ?_⟩
  · obtain ⟨s', hs', hg, -⟩ := write_tss_fin a s i ss0 esp0
    refine ⟨s', hs', ?_⟩
    rw [hg, Function.update_same]
    exact ⟨hacc, hgr, hlo, hmid, hhi⟩
  · obtain ⟨s1, h1, h⟩ := hgdt
    refine ⟨_, init_descriptor_tables_of_init_gdt h1, ?_⟩
    simpa only [init_idt_gdt_entries] using h

/-- The lemma `tss_descriptor_access_base` on the sample link map, TSS at
`0x112000`: slot 5 after `init_gdt`. -/
theorem tss_descriptor_access_base_sample :
    ∃ s', init_gdt Symbols.sample State.ones = some s' ∧
      (s'.mem.gdt_entries 5).access = 0xE9 ∧
      (s'.mem.gdt_entries 5).base_low = 0x2000 ∧
      (s'.mem.gdt_entries 5).base_middle = 0x11 ∧
      (s'.mem.gdt_entries 5).base_high = 0x00 := by
  obtain ⟨s', hs', hacc, -, hlo, hmid, hhi⟩ :=
    (tss_descriptor_access_base Symbols.sample State.ones 5 0x10 0x10 (by decide)).2.1
  exact ⟨s', hs', hacc, by rw [hlo]; decide, by rw [hmid]; decide, by rw [hhi]; decide⟩

/-- C10: for a 32-bit address of `gdt_entries`, `init_gdt` returns and leaves
the GDT pointer with limit `sizeof(gdt_entry_t) * 6 - 1 = 8 * 6 - 1 = 47`,
a value below `2^16` that the 16-bit field stores unchanged, and with base
the address of `gdt_entries`; `init_descriptor_tables` leaves the same. -/
theorem C10_gdt_ptr (a : Symbols) (s : State) (hA : a.gdt_entries < 2 ^ 32) :
    sizeof_gdt_entry_t = 8 ∧ sizeof_gdt_entry_t * 6 - 1 = 47 ∧
    sizeof_gdt_entry_t * 6 - 1 < 2 ^ 16 ∧
    (∃ s', init_gdt a s = some s' ∧
      s'.mem.gdt_ptr.limit = sizeof_gdt_entry_t * 6 - 1 ∧
      s'.mem.gdt_ptr.base = a.gdt_entries) ∧
    (∃ s', init_descriptor_tables a s = some s' ∧
      s'.mem.gdt_ptr.limit = sizeof_gdt_entry_t * 6 - 1 ∧
      s'.mem.gdt_ptr.base = a.gdt_entries) := by
  have hgdt : ∃ s', init_gdt a s = some s' ∧
      s'.mem.gdt_ptr.limit = sizeof_gdt_entry_t * 6 - 1 ∧
      s'.mem.gdt_ptr.base = a.gdt_entries := by
    simp only [init_gdt, gdt_set_gate, write_tss, gdt_flush, tss_flush, Option.bind_eq_bind,
      Option.pure_def]
    simp
    exact ⟨rfl, uint_of_lt hA⟩
  refine ⟨rfl, rfl, by decide, hgdt, ?_⟩
  obtain ⟨s1, h1, h⟩ := hgdt
  refine ⟨_, init_descriptor_tables_of_init_gdt h1, ?_⟩
  simpa only [init_idt_gdt_ptr] using h

/-- The theorem `C10_gdt_ptr` on the sample link map, GDT at `0x110000`. -/
theorem C10_gdt_ptr_witness :
    ∃ s', init_gdt Symbols.sample State.ones = some s' ∧
      s'.mem.gdt_ptr.limit = 47 ∧ s'.mem.gdt_ptr.base = 0x110000 := by
  obtain ⟨s', hs', hlim, hbase⟩ :=
    (C10_gdt_ptr Symbols.sample State.ones (by decide)).2.2.2.1
  exact ⟨s', hs', hlim, hbase⟩


/-! ## The whole boot sequence -/

theorem init_idt_interrupt_handlers (a : Symbols) (s : State) :
    (init_idt a s).mem.interrupt_handlers = s.mem.interrupt_handlers := by
  simp only [init_idt, idt_flush_mem, idt_set_gate_interrupt_handlers, outportb_mem]

/-- The IDT pointer `init_idt` leaves. -/
theorem init_idt_idt_ptr (a : Symbols) (s : State) :
    (init_idt a s).mem.idt_ptr =
      ⟨uint16 (sizeof_idt_entry_t * 256 - 1), uint a.idt_entries⟩ := by
  simp only [init_idt, idt_flush_mem, idt_set_gate_idt_ptr, outportb_mem]

/-- What `init_gdt` does, from any prior state: it returns; the GDT pointer,
the six slots and the TSS are as built; the IDT, its pointer and the handler
registry are untouched; and the two calls it makes see exactly that memory. -/
theorem init_gdt_spec (a : Symbols) (s : State) :
    ∃ s1, init_gdt a s = some s1 ∧
      s1.trace = s.trace ++
        [Event.gdt_flush (uint (uint a.gdt_ptr)) s1.mem, Event.tss_flush s1.mem] ∧
      s1.mem.gdt_ptr = ⟨uint16 (sizeof_gdt_entry_t * 6 - 1), uint a.gdt_entries⟩ ∧
      s1.mem.gdt_entries 0 = ⟨0, 0, 0, 0, 0, 0⟩ ∧
      s1.mem.gdt_entries 1 = ⟨0xFFFF, 0, 0, 0x9A, 0xCF, 0⟩ ∧
      s1.mem.gdt_entries 2 = ⟨0xFFFF, 0, 0, 0x92, 0xCF, 0⟩ ∧
      s1.mem.gdt_entries 3 = ⟨0xFFFF, 0, 0, 0xFA, 0xCF, 0⟩ ∧
      s1.mem.gdt_entries 4 = ⟨0xFFFF, 0, 0, 0xF2, 0xCF, 0⟩ ∧
      s1.mem.gdt_entries 5 =
        { limit_low := uint16 (uint (uint (uint a.tss_entry + sizeof_tss_entry)) &&& 0xFFFF),
          base_low := uint16 (uint (uint a.tss_entry) &&& 0xFFFF),
          base_middle := uint8 ((uint (uint a.tss_entry) >>> 16) &&& 0xFF),
          access := uint8 0xE9,
          granularity :=
            uint8 (uint8 ((uint (uint (uint a.tss_entry + sizeof_tss_entry)) >>> 16) &&& 0x0F)
              ||| (uint8 0x00 &&& 0xF0)),
          base_high := uint8 ((uint (uint a.tss_entry) >>> 24) &&& 0xFF) } ∧
      s1.mem.tss_entry =
        { prev_tss := 0, esp0 := 0x10, ss0 := 0x10, esp1 := 0, ss1 := 0, esp2 := 0,
          ss2 := 0, cr3 := 0, eip := 0, eflags := 0, eax := 0, ecx := 0, edx := 0,
          ebx := 0, esp := 0, ebp := 0, esi := 0, edi := 0, es := 0x13, cs := 0x0B,
          ss := 0x13, ds := 0x13, fs := 0x13, gs := 0x13, ldt := 0, trap := 0,
          iomap_base := 0 } ∧
      s1.mem.idt_entries = s.mem.idt_entries ∧ s1.mem.idt_ptr = s.mem.idt_ptr ∧
      s1.mem.interrupt_handlers = s.mem.interrupt_handlers := by
  simp only [init_gdt, gdt_set_gate, write_tss, gdt_flush, tss_flush, Option.bind_eq_bind,
    Option.pure_def]
  simp
  decide

/-- C11: for a 32-bit address of `idt_entries`, `init_idt` leaves the IDT
pointer with limit `sizeof(idt_entry_t) * 256 - 1 = 8 * 256 - 1 = 2047`, a
value below `2^16` that the 16-bit field stores unchanged, and with base the
address of `idt_entries`; `init_descriptor_tables` returns and leaves the
same. -/
theorem C11_idt_ptr (a : Symbols) (s : State) (hA : a.idt_entries < 2 ^ 32) :
    sizeof_idt_entry_t = 8 ∧ sizeof_idt_entry_t * 256 - 1 = 2047 ∧
    sizeof_idt_entry_t * 256 - 1 < 2 ^ 16 ∧
    (init_idt a s).mem.idt_ptr.limit = sizeof_idt_entry_t * 256 - 1 ∧
    (init_idt a s).mem.idt_ptr.base = a.idt_entries ∧
    (∃ s', init_descriptor_tables a s = some s' ∧
      s'.mem.idt_ptr.limit = sizeof_idt_entry_t * 256 - 1 ∧
      s'.mem.idt_ptr.base = a.idt_entries) := by
  have hptr : ∀ t : State, (init_idt a t).mem.idt_ptr.limit = sizeof_idt_entry_t * 256 - 1 ∧
      (init_idt a t).mem.idt_ptr.base = a.idt_entries := by
    intro t
    rw [init_idt_idt_ptr]
    exact ⟨rfl, uint_of_lt hA⟩
  refine ⟨rfl, rfl, by decide, (hptr s).1, (hptr s).2, ?_⟩
  obtain ⟨s1, h1, -⟩ := init_gdt_spec a s
  exact ⟨_, init_descriptor_tables_of_init_gdt h1, hptr s1⟩

/-- The theorem `C11_idt_ptr` on the sample link map, IDT at `0x110800`. -/
theorem C11_idt_ptr_witness :
    (init_idt Symbols.sample State.ones).mem.idt_ptr.limit = 2047 ∧
    (init_idt Symbols.sample State.ones).mem.idt_ptr.base = 0x110800 := by
  obtain ⟨-, -, -, hlim, hbase, -⟩ := C11_idt_ptr Symbols.sample State.ones (by decide)
  exact ⟨hlim, hbase⟩

/-- C12: whatever the handler registry held before, `init_descriptor_tables`
returns and leaves zero in each of its 256 slots. -/
theorem C12_handlers_cleared (a : Symbols) (s : State) :
    ∃ s', init_descriptor_tables a s = some s' ∧
      ∀ k : Fin 256, s'.mem.interrupt_handlers k = 0 := by
  obtain ⟨s1, h1, -⟩ := init_gdt_spec a s
  exact ⟨_, init_descriptor_tables_of_init_gdt h1, fun _ => rfl⟩


theorem uint_uint (x : Nat) : uint (uint x) = uint x := Nat.mod_mod _ _

/-- What `init_descriptor_tables` does, in terms of its two stages: the
memory it leaves and the calls it makes, each with the memory it sees. -/
theorem init_descriptor_tables_spec (a : Symbols) (s : State) :
    ∃ s1 s', init_gdt a s = some s1 ∧ init_descriptor_tables a s = some s' ∧
      s'.mem.gdt_entries = s1.mem.gdt_entries ∧ s'.mem.gdt_ptr = s1.mem.gdt_ptr ∧
      s'.mem.tss_entry = s1.mem.tss_entry ∧
      s'.mem.idt_entries = (init_idt a s1).mem.idt_entries ∧
      s'.mem.idt_ptr = (init_idt a s1).mem.idt_ptr ∧
      s'.mem.interrupt_handlers = (fun _ => 0) ∧
      s'.trace = s.trace ++
        [Event.gdt_flush (uint a.gdt_ptr) s1.mem, Event.tss_flush s1.mem,
         Event.outportb 0x20 0x11, Event.outportb 0xA0 0x11, Event.outportb 0x21 0x20,
         Event.outportb 0xA1 0x28, Event.outportb 0x21 0x04, Event.outportb 0xA1 0x02,
         Event.outportb 0x21 0x01, Event.outportb 0xA1 0x01, Event.outportb 0x21 0x00,
         Event.outportb 0xA1 0x00, Event.idt_flush (uint a.idt_ptr) (init_idt a s1).mem] := by
  obtain ⟨s1, h1, ht, -⟩ := init_gdt_spec a s
  refine ⟨s1, _, h1, init_descriptor_tables_of_init_gdt h1, ?_, ?_, ?_, rfl, rfl, rfl, ?_⟩
  · exact init_idt_gdt_entries a s1
  · exact init_idt_gdt_ptr a s1
  · exact init_idt_tss_entry a s1
  · show (init_idt a s1).trace = _
    rw [init_idt_trace, ht, uint_uint, uint_uint, List.append_assoc]
    rfl

/-- C13 as stated fails on the sample link map, booting from memory full of
`0xFF`: the first two calls are `gdt_flush` and `tss_flush`, and the memory
`gdt_flush` sees already holds the finished TSS and its descriptor in slot 5,
the same as `tss_flush` sees; the TSS is not built between the two calls. -/
theorem C13_counterexample :
    ∃ s' g m1 m2 rest, init_descriptor_tables Symbols.sample State.ones = some s' ∧
      s'.trace = Event.gdt_flush g m1 :: Event.tss_flush m2 :: rest ∧
      m1.tss_entry = m2.tss_entry ∧ m1.gdt_entries 5 = m2.gdt_entries 5 ∧
      m1.tss_entry.ss0 = 0x10 ∧ m1.tss_entry.cs = 0x0B ∧
      (m1.gdt_entries 5).access = 0xE9 ∧
      State.ones.mem.tss_entry.ss0 = 0xFFFFFFFF ∧
      (State.ones.mem.gdt_entries 5).access = 0xFF := by
  obtain ⟨s1, h1, -, -, -, -, -, -, -, h5, htss, -⟩ := init_gdt_spec Symbols.sample State.ones
  obtain ⟨t1, s', h1', hs', -, -, -, -, -, -, ht⟩ :=
    init_descriptor_tables_spec Symbols.sample State.ones
  cases h1.symm.trans h1'
  refine ⟨s', _, s1.mem, s1.mem, _, hs', ht, rfl, rfl, ?_, ?_, ?_, rfl, rfl⟩
  · rw [htss]
  · rw [htss]
  · rw [h5]; rfl

/-- C13, amended: from any prior state `init_descriptor_tables` returns and
makes these calls, in this order and no others: `gdt_flush`, `tss_flush`, the
ten port writes of the PIC remap, `idt_flush`; each load routine once.  The
GDT pointer, the segment slots 0..4, the TSS descriptor in slot 5 and the TSS
itself are all built before `gdt_flush`, which sees the same memory as
`tss_flush`; the IDT and its pointer are still as before the call then, and
are built by the time of `idt_flush`; the handler registry is still as before
the call at `idt_flush`, and is zero on return. -/
theorem C13_boot_trace (a : Symbols) (s : State) :
    ∃ s' mg mi emitted, init_descriptor_tables a s = some s' ∧
      s'.trace = s.trace ++ emitted ∧
      emitted =
        [Event.gdt_flush (uint a.gdt_ptr) mg, Event.tss_flush mg,
         Event.outportb 0x20 0x11, Event.outportb 0xA0 0x11, Event.outportb 0x21 0x20,
         Event.outportb 0xA1 0x28, Event.outportb 0x21 0x04, Event.outportb 0xA1 0x02,
         Event.outportb 0x21 0x01, Event.outportb 0xA1 0x01, Event.outportb 0x21 0x00,
         Event.outportb 0xA1 0x00, Event.idt_flush (uint a.idt_ptr) mi] ∧
      (emitted.map Event.call).count Call.gdt_flush = 1 ∧
      (emitted.map Event.call).count Call.tss_flush = 1 ∧
      (emitted.map Event.call).count Call.idt_flush = 1 ∧
      mg.gdt_ptr = s'.mem.gdt_ptr ∧
      mg.gdt_entries 0 = ⟨0, 0, 0, 0, 0, 0⟩ ∧
      mg.gdt_entries 1 = ⟨0xFFFF, 0, 0, 0x9A, 0xCF, 0⟩ ∧
      mg.gdt_entries 2 = ⟨0xFFFF, 0, 0, 0x92, 0xCF, 0⟩ ∧
      mg.gdt_entries 3 = ⟨0xFFFF, 0, 0, 0xFA, 0xCF, 0⟩ ∧
      mg.gdt_entries 4 = ⟨0xFFFF, 0, 0, 0xF2, 0xCF, 0⟩ ∧
      (mg.gdt_entries 5).access = 0xE9 ∧
      mg.gdt_entries 5 = s'.mem.gdt_entries 5 ∧
      mg.tss_entry =
        { prev_tss := 0, esp0 := 0x10, ss0 := 0x10, esp1 := 0, ss1 := 0, esp2 := 0,
          ss2 := 0, cr3 := 0, eip := 0, eflags := 0, eax := 0, ecx := 0, edx := 0,
          ebx := 0, esp := 0, ebp := 0, esi := 0, edi := 0, es := 0x13, cs := 0x0B,
          ss := 0x13, ds := 0x13, fs := 0x13, gs := 0x13, ldt := 0, trap := 0,
          iomap_base := 0 } ∧
      mg.idt_entries = s.mem.idt_entries ∧ mg.idt_ptr = s.mem.idt_ptr ∧
      mg.interrupt_handlers = s.mem.interrupt_handlers ∧
      mi.idt_entries = s'.mem.idt_entries ∧ mi.idt_ptr = s'.mem.idt_ptr ∧
      mi.gdt_entries = mg.gdt_entries ∧ mi.tss_entry = mg.tss_entry ∧
      mi.interrupt_handlers = s.mem.interrupt_handlers ∧
      (∀ k : Fin 256, s'.mem.interrupt_handlers k = 0) := by
  obtain ⟨s1, h1, -, hptr, g0, g1, g2, g3, g4, g5, htss, hidt, hiptr, hih⟩ := init_gdt_spec a s
  obtain ⟨t1, s', h1', hs', hge, hgp, -, hie, hip, hz, ht⟩ := init_descriptor_tables_spec a s
  cases h1.symm.trans h1'
  refine ⟨s', s1.mem, (init_idt a s1).mem, _, hs', ht, rfl, rfl, rfl, rfl, hgp.symm, g0, g1,
    g2, g3, g4, ?_, ?_, htss, hidt, hiptr, hih, hie.symm, hip.symm, init_idt_gdt_entries a s1,
    init_idt_tss_entry a s1, ?_, fun k => ?_⟩
  · rw [g5]; rfl
  · rw [hge]
  · rw [init_idt_interrupt_handlers, hih]
  · rw [hz]

/-- C14: for 32-bit addresses of the two pointer structures, `gdt_flush` is
called with the address of `gdt_ptr`, on a GDT and a GDT pointer that are
those `init_descriptor_tables` returns with, and `idt_flush` with the address
of `idt_ptr`, on an IDT and an IDT pointer that are those it returns with;
these are the only two such calls. -/
theorem C14_tables_final_at_load (a : Symbols) (s : State)
    (hg : a.gdt_ptr < 2 ^ 32) (hi : a.idt_ptr < 2 ^ 32) :
    ∃ s' mg mt mi, init_descriptor_tables a s = some s' ∧
      s'.trace = s.trace ++
        [Event.gdt_flush a.gdt_ptr mg, Event.tss_flush mt,
         Event.outportb 0x20 0x11, Event.outportb 0xA0 0x11, Event.outportb 0x21 0x20,
         Event.outportb 0xA1 0x28, Event.outportb 0x21 0x04, Event.outportb 0xA1 0x02,
         Event.outportb 0x21 0x01, Event.outportb 0xA1 0x01, Event.outportb 0x21 0x00,
         Event.outportb 0xA1 0x00, Event.idt_flush a.idt_ptr mi] ∧
      mg.gdt_entries = s'.mem.gdt_entries ∧ mg.gdt_ptr = s'.mem.gdt_ptr ∧
      mi.idt_entries = s'.mem.idt_entries ∧ mi.idt_ptr = s'.mem.idt_ptr := by
  obtain ⟨s1, s', -, hs', hge, hgp, -, hie, hip, -, ht⟩ := init_descriptor_tables_spec a s
  rw [uint_of_lt hg, uint_of_lt hi] at ht
  exact ⟨s', s1.mem, s1.mem, (init_idt a s1).mem, hs', ht, hge.symm, hgp.symm, hie.symm,
    hip.symm⟩

/-- The theorem `C14_tables_final_at_load` on the sample link map: the first
call is `gdt_flush(0x110040)` on the final GDT, whose slot 1 is the kernel
code segment. -/
theorem C14_tables_final_at_load_witness :
    ∃ s' mg rest, init_descriptor_tables Symbols.sample State.ones = some s' ∧
      s'.trace = Event.gdt_flush 0x110040 mg :: rest ∧
      mg.gdt_entries = s'.mem.gdt_entries ∧ mg.gdt_ptr = s'.mem.gdt_ptr := by
  obtain ⟨s', mg, mt, mi, hs', ht, hge, hgp, -, -⟩ :=
    C14_tables_final_at_load Symbols.sample State.ones (by decide) (by decide)
  exact ⟨s', mg, _, hs', ht, hge, hgp⟩


/-! ## Decoding the descriptors -/

/-- C15: after `init_descriptor_tables`, in the access bytes of slots 1 to 4
the present bit (7) and the descriptor-type bit (4) are set, the privilege
level (bits 5-6) is 0 in slots 1 and 2 and 3 in slots 3 and 4, the code bit
(3) is set in slots 1 and 3 and clear in slots 2 and 4, and the read/write
bit (1) is set; in every granularity byte bits 7 and 6 are set; the three
base fields are 0 and the 20-bit limit is `0xFFFFF`. -/
theorem C15_segment_bits (a : Symbols) (s : State) :
    ∃ s', init_descriptor_tables a s = some s' ∧
      (∀ i : Fin 6, 1 ≤ i.val → i.val ≤ 4 →
        (s'.mem.gdt_entries i).access.testBit 7 = true ∧
        (s'.mem.gdt_entries i).access.testBit 4 = true ∧
        (s'.mem.gdt_entries i).access.testBit 1 = true ∧
        (s'.mem.gdt_entries i).granularity.testBit 7 = true ∧
        (s'.mem.gdt_entries i).granularity.testBit 6 = true ∧
        (s'.mem.gdt_entries i).base_low + 2 ^ 16 * (s'.mem.gdt_entries i).base_middle +
          2 ^ 24 * (s'.mem.gdt_entries i).base_high = 0 ∧
        (s'.mem.gdt_entries i).limit_low +
          2 ^ 16 * ((s'.mem.gdt_entries i).granularity &&& 0x0F) = 0xFFFFF) ∧
      ((s'.mem.gdt_entries 1).access >>> 5) &&& 3 = 0 ∧
      ((s'.mem.gdt_entries 2).access >>> 5) &&& 3 = 0 ∧
      ((s'.mem.gdt_entries 3).access >>> 5) &&& 3 = 3 ∧
      ((s'.mem.gdt_entries 4).access >>> 5) &&& 3 = 3 ∧
      (s'.mem.gdt_entries 1).access.testBit 3 = true ∧
      (s'.mem.gdt_entries 2).access.testBit 3 = false ∧
      (s'.mem.gdt_entries 3).access.testBit 3 = true ∧
      (s'.mem.gdt_entries 4).access.testBit 3 = false := by
  obtain ⟨s1, h1, -, -, -, g1, g2, g3, g4, -⟩ := init_gdt_spec a s
  obtain ⟨t1, s', h1', hs', hge, -⟩ := init_descriptor_tables_spec a s
  cases h1.symm.trans h1'
  refine ⟨s', hs', fun i hlo hhi => ?_, ?_⟩
  · obtain ⟨i, hi⟩ := i
    simp only at hlo hhi
    rw [hge]
    interval_cases i
    · rw [show (⟨1, hi⟩ : Fin 6) = 1 from rfl, g1]; decide
    · rw [show (⟨2, hi⟩ : Fin 6) = 2 from rfl, g2]; decide
    · rw [show (⟨3, hi⟩ : Fin 6) = 3 from rfl, g3]; decide
    · rw [show (⟨4, hi⟩ : Fin 6) = 4 from rfl, g4]; decide
  · rw [hge, g1, g2, g3, g4]
    decide

/-- C16: the declared fields of each packed structure, in order, and their
widths: `gdt_entry_struct` and `idt_entry_struct` add up to 8 bytes, the two
pointer structures to 6 bytes, and `TSSEntry`, 25 fields of 32 bits followed
by `trap` and `iomap_base` of 16 bits, to 104 bytes; these are the sizes the
`sizeof` expressions of the file stand for. -/
theorem C16_packed_sizes :
    (gdt_entry_struct_decl.map fun f => (f.1, f.2.bits)) =
      [("limit_low", 16), ("base_low", 16), ("base_middle", 8), ("access", 8),
       ("granularity", 8), ("base_high", 8)] ∧
    packed_bits gdt_entry_struct_decl = 8 * 8 ∧ sizeof_gdt_entry_t = 8 ∧
    (idt_entry_struct_decl.map fun f => (f.1, f.2.bits)) =
      [("base_lo", 16), ("sel", 16), ("always0", 8), ("flags", 8), ("base_hi", 16)] ∧
    packed_bits idt_entry_struct_decl = 8 * 8 ∧ sizeof_idt_entry_t = 8 ∧
    (gdt_ptr_struct_decl.map fun f => (f.1, f.2.bits)) = [("limit", 16), ("base", 32)] ∧
    packed_bits gdt_ptr_struct_decl = 6 * 8 ∧ sizeof_gdt_ptr_t = 6 ∧
    (idt_ptr_struct_decl.map fun f => (f.1, f.2.bits)) = [("limit", 16), ("base", 32)] ∧
    packed_bits idt_ptr_struct_decl = 6 * 8 ∧ sizeof_idt_ptr_t = 6 ∧
    TSSEntry_decl.length = 27 ∧
    (∀ f ∈ TSSEntry_decl.take 25, f.2.bits = 32) ∧
    ((TSSEntry_decl.drop 25).map fun f => (f.1, f.2.bits)) =
      [("trap", 16), ("iomap_base", 16)] ∧
    packed_bits TSSEntry_decl = 104 * 8 ∧ sizeof_tss_entry = 104 := by
  refine ⟨rfl, rfl, rfl, rfl, rfl, rfl, rfl, rfl, rfl, rfl, rfl, rfl, rfl, ?_, rfl, rfl, rfl⟩
  intro f hf
  simp only [TSSEntry_decl, List.take_succ_cons, List.take_zero, List.mem_cons,
    List.mem_singleton, List.not_mem_nil, or_false] at hf
  rcases hf with h | h | h | h | h | h | h | h | h | h | h | h | h | h | h | h | h | h | h |
    h | h | h | h | h | h <;> (subst h; rfl)

/-- The three base fields `gdt_set_gate` stores, for a 32-bit base. -/
theorem gdt_base_fields (b : Nat) (hb : b < 2 ^ 32) :
    uint16 (uint b &&& 0xFFFF) = b % 2 ^ 16 ∧
    uint8 ((uint b >>> 16) &&& 0xFF) = b / 2 ^ 16 % 256 ∧
    uint8 ((uint b >>> 24) &&& 0xFF) = b / 2 ^ 24 := by
  have h := tss_descriptor_base b hb
  rwa [uint_uint] at h

set_option maxRecDepth 100000 in
theorem and_0xF0 : ∀ g < 256, g &&& 0xF0 = 16 * (g / 16) := by
  decide

/-- C17: for an index of the GDT, 32-bit `base` and `limit` and bytes
`access` and `gran`, the slot `gdt_set_gate` writes satisfies
`base_low + 2^16 * base_middle + 2^24 * base_high = base`,
`limit_low + 2^16 * (granularity & 0x0F) = limit mod 2^20`,
`granularity & 0xF0 = gran & 0xF0` and `access = access`; and a limit with
the same low 20 bits together with a `gran` with the same high nibble gives
the same result. -/
theorem C17_gdt_set_gate_lossless (s : State) (i : Fin 6) (base limit access gran : Nat)
    (hb : base < 2 ^ 32) (hl : limit < 2 ^ 32) (ha : access < 2 ^ 8) (hg : gran < 2 ^ 8) :
    (∃ s' e, gdt_set_gate s (i.val : Int) base limit access gran = some s' ∧
      s'.mem.gdt_entries i = e ∧
      e.base_low + 2 ^ 16 * e.base_middle + 2 ^ 24 * e.base_high = base ∧
      e.limit_low + 2 ^ 16 * (e.granularity &&& 0x0F) = limit % 2 ^ 20 ∧
      e.granularity &&& 0xF0 = gran &&& 0xF0 ∧
      e.access = access) ∧
    (∀ limit' gran', limit' < 2 ^ 32 → gran' < 2 ^ 8 →
      limit' % 2 ^ 20 = limit % 2 ^ 20 → gran' / 16 = gran / 16 →
      gdt_set_gate s (i.val : Int) base limit' access gran' =
        gdt_set_gate s (i.val : Int) base limit access gran) := by
  have hx : ∀ l, (l >>> 16) &&& 0x0F = l / 2 ^ 16 % 16 := by
    intro l
    rw [and_0x0F, Nat.shiftRight_eq_div_pow]
    rfl
  have hlow : ∀ l, l < 2 ^ 32 → uint16 (uint l &&& 0xFFFF) = l % 2 ^ 16 := by
    intro l hl'
    rw [uint_of_lt hl', and_0xFFFF]
    exact uint16_of_lt (Nat.mod_lt _ (by decide))
  constructor
  · obtain ⟨hlo, hmid, hhi⟩ := gdt_base_fields base hb
    have h16 : (limit >>> 16) &&& 0x0F < 16 := by rw [hx]; omega
    have hn := gran_nibbles _ h16 gran hg
    refine ⟨_, _, gdt_set_gate_fin s i base limit access gran, Function.update_same _ _ _,
      ?_, ?_, ?_, uint8_of_lt ha⟩
    · show uint16 (uint base &&& 0xFFFF) + 2 ^ 16 * uint8 ((uint base >>> 16) &&& 0xFF) +
        2 ^ 24 * uint8 ((uint base >>> 24) &&& 0xFF) = base
      rw [hlo, hmid, hhi]
      omega
    · show uint16 (uint limit &&& 0xFFFF) + 2 ^ 16 *
        (uint8 (uint8 ((uint limit >>> 16) &&& 0x0F) ||| (uint8 gran &&& 0xF0)) &&& 0x0F) =
          limit % 2 ^ 20
      rw [hlow limit hl, uint_of_lt hl, gdt_granularity_value limit gran hg, hn.2.1, hx]
      omega
    · show uint8 (uint8 ((uint limit >>> 16) &&& 0x0F) ||| (uint8 gran &&& 0xF0)) &&& 0xF0 =
        gran &&& 0xF0
      rw [uint_of_lt hl, gdt_granularity_value limit gran hg, hn.2.2]
  · intro limit' gran' hl' hg' hlim hgran
    rw [gdt_set_gate_fin, gdt_set_gate_fin, hlow limit' hl', hlow limit hl,
      uint_of_lt hl', uint_of_lt hl, gdt_granularity_value limit' gran' hg',
      gdt_granularity_value limit gran hg, hx, hx, and_0xF0 gran' hg', and_0xF0 gran hg, hgran]
    have e1 : limit' % 2 ^ 16 = limit % 2 ^ 16 := by omega
    have e2 : limit' / 2 ^ 16 % 16 = limit / 2 ^ 16 % 16 := by omega
    rw [e1, e2]

/-- The theorem `C17_gdt_set_gate_lossless` at the kernel code segment
`gdt_set_gate(1, 0, 0xFFFFFFFF, 0x9A, 0xCF)`: the limit `0x000FFFFF` with
`gran = 0xC0` writes the same descriptor. -/
theorem C17_gdt_set_gate_lossless_witness :
    (∃ s', gdt_set_gate State.ones 1 0 0xFFFFFFFF 0x9A 0xCF = some s' ∧
      (s'.mem.gdt_entries 1).limit_low + 2 ^ 16 * ((s'.mem.gdt_entries 1).granularity &&& 0x0F)
        = 0xFFFFF) ∧
    gdt_set_gate State.ones 1 0 0x000FFFFF 0x9A 0xC0 =
      gdt_set_gate State.ones 1 0 0xFFFFFFFF 0x9A 0xCF := by
  obtain ⟨⟨s', e, hs', he, -, hlim, -, -⟩, hsame⟩ :=
    C17_gdt_set_gate_lossless State.ones 1 0 0xFFFFFFFF 0x9A 0xCF
      (by decide) (by decide) (by decide) (by decide)
  refine ⟨⟨s', hs', ?_⟩, hsame 0x000FFFFF 0xC0 (by decide) (by decide) (by decide) (by decide)⟩
  rw [he, hlim]
  decide


/-! ## The TSS descriptor limit, determinism, bounds -/

/-- C18: for a 32-bit TSS address `A` and an index of the GDT, the slot
`write_tss` writes has `limit_low = (A + 104) mod 2^16` and
`granularity = ((A + 104) mod 2^32 div 2^16) mod 16`, where 104 is
`sizeof(tss_entry)`; so the encoded 20-bit limit is `(A + 104) mod 2^20`,
it is `103` only if `A mod 2^20 = 2^20 - 1`, and the granularity byte is
non-zero whenever bits 16..19 of `A + 104` are. -/
theorem C18_tss_limit_from_address (a : Symbols) (s : State) (i : Fin 6) (ss0 esp0 : Nat)
    (hA : a.tss_entry < 2 ^ 32) :
    sizeof_tss_entry = 104 ∧
    ∃ s' e, write_tss a s (i.val : Int) ss0 esp0 = some s' ∧
      s'.mem.gdt_entries i = e ∧
      e.limit_low = (a.tss_entry + 104) % 2 ^ 16 ∧
      e.granularity = (a.tss_entry + 104) % 2 ^ 32 / 2 ^ 16 % 16 ∧
      e.limit_low + 2 ^ 16 * (e.granularity &&& 0x0F) = (a.tss_entry + 104) % 2 ^ 20 ∧
      (e.limit_low + 2 ^ 16 * (e.granularity &&& 0x0F) = sizeof_tss_entry - 1 ↔
        a.tss_entry % 2 ^ 20 = 2 ^ 20 - 1) ∧
      ((a.tss_entry + 104) / 2 ^ 16 % 16 ≠ 0 → e.granularity ≠ 0) := by
  refine ⟨rfl, ?_⟩
  obtain ⟨s', hs', hg, -⟩ := write_tss_fin a s i ss0 esp0
  have hsz : sizeof_tss_entry = 104 := rfl
  have hL : uint (uint (uint a.tss_entry + sizeof_tss_entry)) = (a.tss_entry + 104) % 2 ^ 32 := by
    rw [uint_uint, uint_of_lt hA, hsz]; rfl
  have hlow : uint16 (uint (uint (uint a.tss_entry + sizeof_tss_entry)) &&& 0xFFFF) =
      (a.tss_entry + 104) % 2 ^ 16 := by
    rw [hL, and_0xFFFF, uint16]
    omega
  have hgr : uint8 (uint8 ((uint (uint (uint a.tss_entry + sizeof_tss_entry)) >>> 16) &&& 0x0F)
      ||| (uint8 0x00 &&& 0xF0)) = (a.tss_entry + 104) % 2 ^ 32 / 2 ^ 16 % 16 := by
    rw [gdt_granularity_value _ 0x00 (by decide), hL, Nat.zero_and, Nat.or_zero, and_0x0F,
      Nat.shiftRight_eq_div_pow]
    rfl
  have hnib : ∀ x, x % 16 &&& 0x0F = x % 16 := by
    intro x
    rw [and_0x0F]
    omega
  refine ⟨s', _, hs', by rw [hg, Function.update_same], hlow, hgr, ?_, ?_, ?_⟩
  · show uint16 _ + 2 ^ 16 * (uint8 _ &&& 0x0F) = _
    rw [hlow, hgr, hnib]
    omega
  · show uint16 _ + 2 ^ 16 * (uint8 _ &&& 0x0F) = _ ↔ _
    rw [hlow, hgr, hnib, hsz]
    omega
  · show _ → uint8 _ ≠ 0
    rw [hgr]
    omega

/-- The theorem `C18_tss_limit_from_address` on the sample link map, TSS at
`0x112000`: the descriptor holds the 20-bit limit `0x12068`, not `103`. -/
theorem C18_tss_limit_from_address_witness :
    ∃ s', write_tss Symbols.sample State.ones 5 0x10 0x10 = some s' ∧
      (s'.mem.gdt_entries 5).limit_low = 0x2068 ∧
      (s'.mem.gdt_entries 5).granularity = 0x01 := by
  obtain ⟨-, s', e, hs', he, hlow, hgr, -⟩ :=
    C18_tss_limit_from_address Symbols.sample State.ones 5 0x10 0x10 (by decide)
  exact ⟨s', hs', by rw [he, hlow]; decide, by rw [he, hgr]; decide⟩

/-- Two memories with the same contents in every global are equal. -/
theorem Globals.eq_of_fields {m n : Globals} (h1 : m.gdt_entries = n.gdt_entries)
    (h2 : m.gdt_ptr = n.gdt_ptr) (h3 : m.idt_entries = n.idt_entries)
    (h4 : m.idt_ptr = n.idt_ptr) (h5 : m.tss_entry = n.tss_entry)
    (h6 : m.interrupt_handlers = n.interrupt_handlers) : m = n := by
  cases m
  cases n
  simp only at h1 h2 h3 h4 h5 h6
  subst h1 h2 h3 h4 h5 h6
  rfl

/-- The memory `init_descriptor_tables` leaves does not depend on the memory
it starts from. -/
theorem init_descriptor_tables_mem_indep (a : Symbols) (s t : State) :
    ∃ s' t', init_descriptor_tables a s = some s' ∧ init_descriptor_tables a t = some t' ∧
      s'.mem = t'.mem := by
  obtain ⟨s1, hs1, -, sp, s0, s1', s2, s3, s4, s5, stss, -⟩ := init_gdt_spec a s
  obtain ⟨t1, ht1, -, tp, t0, t1', t2, t3, t4, t5, ttss, -⟩ := init_gdt_spec a t
  obtain ⟨s1b, s', hs1b, hs', sge, sgp, stse, sie, sip, sih, -⟩ :=
    init_descriptor_tables_spec a s
  obtain ⟨t1b, t', ht1b, ht', tge, tgp, ttse, tie, tip, tih, -⟩ :=
    init_descriptor_tables_spec a t
  cases hs1.symm.trans hs1b
  cases ht1.symm.trans ht1b
  refine ⟨s', t', hs', ht', Globals.eq_of_fields ?_ ?_ ?_ ?_ ?_ ?_⟩
  · rw [sge, tge]
    funext i
    obtain ⟨i, hi⟩ := i
    interval_cases i
    · exact s0.trans t0.symm
    · exact s1'.trans t1'.symm
    · exact s2.trans t2.symm
    · exact s3.trans t3.symm
    · exact s4.trans t4.symm
    · exact s5.trans t5.symm
  · rw [sgp, tgp, sp, tp]
  · rw [sie, tie]
    funext v
    rw [init_idt_idt_entries_apply, init_idt_idt_entries_apply]
  · rw [sip, tip, init_idt_idt_ptr, init_idt_idt_ptr]
  · rw [stse, ttse, stss, ttss]
  · rw [sih, tih]

/-- C19: for fixed symbol addresses, `init_descriptor_tables` returns from
any two prior states with the same memory (GDT, GDT pointer, IDT, IDT
pointer, TSS, handler registry); run again on its own result, with or without
a `set_kernel_stack` call in between, it returns with that memory once more,
in which `esp0 = 0x10` and `ss0 = 0x10`. -/
theorem C19_init_deterministic (a : Symbols) (s t : State) (p : Nat) :
    ∃ s' t', init_descriptor_tables a s = some s' ∧ init_descriptor_tables a t = some t' ∧
      s'.mem = t'.mem ∧
      (∃ s2, init_descriptor_tables a s' = some s2 ∧ s2.mem = s'.mem) ∧
      (∃ s3, init_descriptor_tables a (set_kernel_stack s' p) = some s3 ∧ s3.mem = s'.mem ∧
        s3.mem.tss_entry.esp0 = 0x10 ∧ s3.mem.tss_entry.ss0 = 0x10) := by
  obtain ⟨s', t', hs', ht', hst⟩ := init_descriptor_tables_mem_indep a s t
  refine ⟨s', t', hs', ht', hst, ?_, ?_⟩
  · obtain ⟨s2, u, hs2, hu, h⟩ := init_descriptor_tables_mem_indep a s' s
    cases hs'.symm.trans hu
    exact ⟨s2, hs2, h⟩
  · obtain ⟨s3, u, hs3, hu, h⟩ := init_descriptor_tables_mem_indep a (set_kernel_stack s' p) s
    cases hs'.symm.trans hu
    obtain ⟨s1, hs1, -, -, -, -, -, -, -, -, htss, -⟩ :=
      init_gdt_spec a (set_kernel_stack s' p)
    obtain ⟨s1b, v, hs1b, hv, -, -, htse, -⟩ :=
      init_descriptor_tables_spec a (set_kernel_stack s' p)
    cases hs1.symm.trans hs1b
    cases hs3.symm.trans hv
    refine ⟨s3, hs3, h, ?_, ?_⟩ <;> rw [htse, htss]

/-- C20: `gdt_set_gate`, and with it `write_tss`, has a result exactly on the
indices 0..5 of the GDT; `init_gdt` and `init_descriptor_tables` have a
result from every prior state, so none of their GDT stores is out of range;
and the slot `idt_set_gate` writes is the one at its 8-bit vector, which is
below 256 whatever the argument. -/
theorem C20_indices_in_bounds (a : Symbols) (s : State) :
    (∀ (t : State) (num : Int) (base limit access gran : Nat),
      (gdt_set_gate t num base limit access gran).isSome = true ↔ (0 ≤ num ∧ num < 6)) ∧
    (∀ (t : State) (num : Int) (ss0 esp0 : Nat),
      (write_tss a t num ss0 esp0).isSome = true ↔ (0 ≤ num ∧ num < 6)) ∧
    (init_gdt a s).isSome = true ∧
    (init_descriptor_tables a s).isSome = true ∧
    (∀ (t : State) (num base sel flags : Nat), ∃ v : Fin 256, v.val = uint8 num ∧
      ∀ j : Fin 256, j ≠ v →
        (idt_set_gate t num base sel flags).mem.idt_entries j = t.mem.idt_entries j) := by
  refine ⟨fun t num base limit access gran => ?_, fun t num ss0 esp0 => ?_, ?_, ?_,
    fun t num base sel flags => ?_⟩
  · by_cases h : 0 ≤ num ∧ num < 6
    · simp only [gdt_set_gate_eq_some t num base limit access gran h, Option.isSome_some, h,
        and_self]
    · simp only [gdt_set_gate_eq_none t num base limit access gran h, Option.isSome_none, h]
      simp
  · by_cases h : 0 ≤ num ∧ num < 6
    · obtain ⟨s', hs'⟩ := write_tss_isSome a t num ss0 esp0 h
      simp only [hs', Option.isSome_some, h, and_self]
    · have hn : write_tss a t num ss0 esp0 = none := by
        simp only [write_tss, Option.bind_eq_bind, Option.pure_def,
          gdt_set_gate_eq_none _ _ _ _ _ _ h, Option.none_bind]
      simp only [hn, Option.isSome_none, h]
      simp
  · obtain ⟨s1, h1, -⟩ := init_gdt_spec a s
    rw [h1]; rfl
  · obtain ⟨s1, s', -, hs', -⟩ := init_descriptor_tables_spec a s
    rw [hs']; rfl
  · refine ⟨⟨uint8 num, Nat.mod_lt _ (by decide)⟩, rfl, fun j hj => ?_⟩
    rw [idt_set_gate_idt_entries]
    exact Function.update_noteq hj _ _

end DescriptorTables
